import Mathlib

/-!
# Verification of the EEVEE texture-paint baking addon

A shallow embedding, in Lean 4, of the orchestration logic of the
texture-paint baking addon: the projection settings value object
(`src/utils/settings.py`), the texture projector's camera-angle
generation, camera geometry, temp-artifact bookkeeping and cleanup
(`src/utils/projector.py`), the memoization decorator
(`src/utils/functions.py`), the modal bake operator
(`src/operators/texture_baker.py`), the cancel operator
(`src/operators/cancel_bake.py`) and the bake-preview toggle
(`src/operators/toggle_bake.py`).

Host-application (Blender) primitives — rendering, node-graph storage,
image datablocks, files on disk — are represented by explicit state:
lists of image datablock names, existing file paths and scene objects.
Calls into the host that can raise (camera positioning, viewport setup,
rendering) are driven by explicit outcome oracles so that the
exception-flow of the Python source is modelled faithfully.
-/

namespace TexturePaintBake

/-- Model of `ProjectionSettings` from `src/utils/settings.py` (lines 3-13): the
per-run value object.  Field defaults are the dataclass defaults.
`angle_offset` is a Python float literal `30`; it is represented as a
rational. -/
structure ProjectionSettings where
  resolution : Nat := 4096
  uv_map_name : String := "Bake_UV"
  image_name : String := "Bake_Texture"
  camera_name : String := "BakeCamera"
  seam_bleed : Nat := 2
  angle_offset : ℚ := 30
  render_view_prefix : String := "EEVEE Bake Test_Model"
  output_folder : String := "texture_projections"
  temp_folder : String := "temp_renders"
deriving DecidableEq, Repr

/-- Model of `TextureProjector.generate_camera_angles`
(`src/utils/projector.py` lines 333-343): for each view type in
`["below", "total", "upper"]`, append the four cardinal horizontal
angles `[0, 90, 180, 270]`.  Python ints are modelled as `ℤ`. -/
def generate_camera_angles : List (String × ℤ) :=
  ["below", "total", "upper"].flatMap (fun view_type =>
    [(0 : ℤ), 90, 180, 270].map (fun h_angle => (view_type, h_angle)))

/-- C1: `generate_camera_angles` always returns exactly the 12
(view category, azimuth) pairs: for each view category in the order
`below`, `total`, `upper`, the azimuths 0, 90, 180, 270 in that order.
The function takes no input, so the result is independent of settings
and scene state. -/
theorem generate_camera_angles_fixed_sequence :
    generate_camera_angles =
      [("below", 0), ("below", 90), ("below", 180), ("below", 270),
       ("total", 0), ("total", 90), ("total", 180), ("total", 270),
       ("upper", 0), ("upper", 90), ("upper", 180), ("upper", 270)] ∧
    generate_camera_angles.length = 12 := by
  constructor <;> rfl

/-! ## Host and projector state

The Blender data the addon touches is modelled explicitly:
`images` is the set of image datablock names in `bpy.data.images`
(names are unique in Blender; the model tolerates duplicates — removal
by name removes every occurrence), `files` is the set of paths that
exist on disk, `objects` is the set of scene object names. -/

structure HostState where
  images : List String
  files : List String
  objects : List String
deriving DecidableEq, Repr

/-- The fields of `TextureProjector` (`src/utils/projector.py`
lines 11-22) that the verified claims touch: the immutable settings,
the `temp_files` list of `(image name, file path)` pairs, the
`original_nodes` side table keyed by material identity, and the camera
object name (`None` until `setup_camera` runs).  Fields that are pure
host handles (`obj`, `bake_image`, `_view3d_cache`, `aspect_ratio`)
are not part of the orchestration state the claims are about; the
geometry that reads `obj` and the camera is modelled separately below
with the bounding-box corners and field of view as inputs. -/
structure Projector where
  settings : ProjectionSettings
  temp_files : List (String × String)
  original_nodes : List (String × (List (String × String) × Option String))
  camera : Option String
deriving DecidableEq, Repr

/-- Model of `TextureProjector.__init__` (lines 11-22): empty temp-file list,
empty original-node table, no camera yet. -/
def TextureProjector.init (settings : ProjectionSettings) : Projector :=
  { settings := settings, temp_files := [], original_nodes := [], camera := none }

/-- Creating a file on disk: `os` path writes overwrite, so an existing
path stays a single entry. -/
def addFile (files : List String) (p : String) : List String :=
  if p ∈ files then files else files ++ [p]

/-- Model of `TextureProjector.cleanup` (`src/utils/projector.py` lines 96-127).
The loop walks `temp_files`, collecting every image datablock whose
name is present in `bpy.data.images` into `images_to_remove` and
deleting each recorded path that exists on disk; then
`bpy.data.batch_remove` deletes the collected datablocks and
`temp_files.clear()` empties the list.  `use_fake_user`/`user_clear`
calls and the final removal of the (empty) temp directory are
host-reference bookkeeping with no bearing on the modelled state. -/
def TextureProjector.cleanup (p : Projector) (h : HostState) : Projector × HostState :=
  let step := fun (acc : List String × List String) (nf : String × String) =>
    let toRemove := if nf.1 ∈ h.images then acc.1 ++ [nf.1] else acc.1
    let files := if nf.2 ∈ acc.2 then acc.2.erase nf.2 else acc.2
    (toRemove, files)
  let collected := p.temp_files.foldl step ([], h.files)
  let images₁ := h.images.filter (fun n => ¬ n ∈ collected.1)
  ({ p with temp_files := [] }, { h with images := images₁, files := collected.2 })

/-- One successful `create_temp_render`
(`src/utils/projector.py` lines 394-447): the render is written to the
temp path on disk, loaded as an image datablock, and the
`(name, path)` pair is appended to `temp_files`.
`bpy.data.images.load` always creates a fresh datablock. -/
def applyRenderArtifact (p : Projector) (h : HostState) (art : String × String) :
    Projector × HostState :=
  ({ p with temp_files := p.temp_files ++ [art] },
   { h with images := h.images ++ [art.1], files := addFile h.files art.2 })

/-! ### Cleanup lemmas -/

/-- The coupled fold in `cleanup` splits into an image-name fold and a
file fold. -/
theorem cleanup_fold_split (images : List String) (tfs : List (String × String))
    (tr fs : List String) :
    tfs.foldl (fun (acc : List String × List String) (nf : String × String) =>
        (if nf.1 ∈ images then acc.1 ++ [nf.1] else acc.1,
         if nf.2 ∈ acc.2 then acc.2.erase nf.2 else acc.2)) (tr, fs) =
      (tfs.foldl (fun a nf => if nf.1 ∈ images then a ++ [nf.1] else a) tr,
       tfs.foldl (fun a nf => if nf.2 ∈ a then a.erase nf.2 else a) fs) := by
  induction tfs generalizing tr fs with
  | nil => rfl
  | cons nf rest ih => simp only [List.foldl_cons, ih]

/-- The collection fold is monotone in its accumulator. -/
theorem collect_fold_mono (images : List String) (tfs : List (String × String))
    (tr : List String) (n : String) (hn : n ∈ tr) :
    n ∈ tfs.foldl (fun a nf => if nf.1 ∈ images then a ++ [nf.1] else a) tr := by
  induction tfs generalizing tr with
  | nil => exact hn
  | cons nf rest ih =>
    simp only [List.foldl_cons]
    apply ih
    split
    · exact List.mem_append_left _ hn
    · exact hn

/-- A recorded name that is present among the image datablocks is
collected for removal. -/
theorem mem_collect_of_mem (images : List String) (tfs : List (String × String))
    (tr : List String) (n : String) (hn : n ∈ images)
    (hmem : ∃ pth, (n, pth) ∈ tfs) :
    n ∈ tfs.foldl (fun a nf => if nf.1 ∈ images then a ++ [nf.1] else a) tr := by
  induction tfs generalizing tr with
  | nil => obtain ⟨pth, hp⟩ := hmem; cases hp
  | cons nf rest ih =>
    obtain ⟨pth, hp⟩ := hmem
    rcases List.mem_cons.mp hp with heq | htail
    · have h1 : nf.1 = n := by cases heq; rfl
      simp only [List.foldl_cons]
      rw [h1, if_pos hn]
      exact collect_fold_mono images rest _ n (List.mem_append_right _ (by simp))
    · exact ih _ ⟨pth, htail⟩

/-- The collection fold only adds names that head `temp_files` entries:
everything in the output was in the accumulator or is a recorded name
present in `images`. -/
theorem mem_of_mem_collect (images : List String) (tfs : List (String × String))
    (tr : List String) (n : String)
    (h : n ∈ tfs.foldl (fun a nf => if nf.1 ∈ images then a ++ [nf.1] else a) tr) :
    n ∈ tr ∨ ∃ pth, (n, pth) ∈ tfs := by
  induction tfs generalizing tr with
  | nil => exact Or.inl h
  | cons nf rest ih =>
    simp only [List.foldl_cons] at h
    rcases ih _ h with hacc | ⟨pth, hp⟩
    · by_cases hi : nf.1 ∈ images
      · rw [if_pos hi] at hacc
        rcases List.mem_append.mp hacc with h1 | h2
        · exact Or.inl h1
        · right; exact ⟨nf.2, by simp at h2; simp [h2]⟩
      · rw [if_neg hi] at hacc; exact Or.inl hacc
    · right; exact ⟨pth, List.mem_cons_of_mem _ hp⟩

/-- One step of the file fold equals a plain erase. -/
theorem guard_erase_eq (fs : List String) (x : String) :
    (if x ∈ fs then fs.erase x else fs) = fs.erase x := by
  by_cases hx : x ∈ fs
  · rw [if_pos hx]
  · rw [if_neg hx, List.erase_of_not_mem hx]

/-- The guarded erase-fold of `cleanup` is the plain erase-fold. -/
theorem erase_fold_eq (tfs : List (String × String)) (fs : List String) :
    tfs.foldl (fun a nf => if nf.2 ∈ a then a.erase nf.2 else a) fs =
      tfs.foldl (fun a nf => a.erase nf.2) fs := by
  induction tfs generalizing fs with
  | nil => rfl
  | cons nf rest ih =>
    simp only [List.foldl_cons]
    rw [guard_erase_eq, ih]

/-- Erase-folding never introduces a member: a path absent from the
accumulator is absent from the result. -/
theorem not_mem_erase_fold (tfs : List (String × String)) (fs : List String)
    (x : String) (hx : x ∉ fs) :
    x ∉ tfs.foldl (fun a nf => a.erase nf.2) fs := by
  induction tfs generalizing fs with
  | nil => exact hx
  | cons nf rest ih =>
    simp only [List.foldl_cons]
    exact ih _ (fun hmem => hx (List.mem_of_mem_erase hmem))

/-- Erase-folding preserves `Nodup`. -/
theorem nodup_erase_fold (tfs : List (String × String)) (fs : List String)
    (hnd : fs.Nodup) :
    (tfs.foldl (fun a nf => a.erase nf.2) fs).Nodup := by
  induction tfs generalizing fs with
  | nil => exact hnd
  | cons nf rest ih =>
    simp only [List.foldl_cons]
    exact ih _ (hnd.erase _)

/-- On a duplicate-free file listing, the erase-fold of `cleanup`
removes every recorded path. -/
theorem erase_fold_removes (tfs : List (String × String)) (fs : List String)
    (hnd : fs.Nodup) (n pth : String) (hmem : (n, pth) ∈ tfs) :
    pth ∉ tfs.foldl (fun a nf => a.erase nf.2) fs := by
  induction tfs generalizing fs with
  | nil => cases hmem
  | cons nf rest ih =>
    simp only [List.foldl_cons]
    rcases List.mem_cons.mp hmem with heq | htail
    · have h2 : nf.2 = pth := by cases heq; rfl
      rw [h2]
      exact not_mem_erase_fold _ _ _ hnd.not_mem_erase
    · exact ih _ (hnd.erase _) htail

/-- Adding a file preserves `Nodup`. -/
theorem addFile_nodup (fs : List String) (p : String) (hnd : fs.Nodup) :
    (addFile fs p).Nodup := by
  unfold addFile
  by_cases hp : p ∈ fs
  · rw [if_pos hp]; exact hnd
  · rw [if_neg hp]
    refine List.nodup_append.mpr ⟨hnd, List.nodup_singleton p, ?_⟩
    intro a ha hb
    simp only [List.mem_singleton] at hb
    subst hb
    exact hp ha

/-- Unfolding the result of `TextureProjector.cleanup` into its two
components. -/
theorem cleanup_eq (p : Projector) (h : HostState) :
    TextureProjector.cleanup p h =
      ({ p with temp_files := [] },
       { h with
          images := h.images.filter (fun n => ¬ n ∈ p.temp_files.foldl
            (fun a nf => if nf.1 ∈ h.images then a ++ [nf.1] else a) []),
          files := p.temp_files.foldl (fun a nf => a.erase nf.2) h.files }) := by
  unfold TextureProjector.cleanup
  dsimp only
  rw [cleanup_fold_split, ← erase_fold_eq]

/-- Core cleanup postcondition: after `TextureProjector.cleanup`,
`temp_files` is empty and — provided the disk listing is
duplicate-free — every recorded artifact's image datablock and file
are gone. -/
theorem cleanup_removes_all (p : Projector) (h : HostState)
    (hnd : h.files.Nodup) :
    (TextureProjector.cleanup p h).1.temp_files = [] ∧
    ∀ nf ∈ p.temp_files,
      nf.1 ∉ (TextureProjector.cleanup p h).2.images ∧
      nf.2 ∉ (TextureProjector.cleanup p h).2.files := by
  rw [cleanup_eq]
  refine ⟨rfl, ?_⟩
  intro nf hmem
  constructor
  · intro hin
    rcases List.mem_filter.mp hin with ⟨hmem_img, hdec⟩
    have hcol : nf.1 ∈ p.temp_files.foldl
        (fun a x => if x.1 ∈ h.images then a ++ [x.1] else a) [] :=
      mem_collect_of_mem h.images p.temp_files [] nf.1 hmem_img ⟨nf.2, by simpa using hmem⟩
    simp only [decide_not, Bool.not_eq_true', decide_eq_false_iff_not] at hdec
    exact hdec hcol
  · exact erase_fold_removes p.temp_files h.files hnd nf.1 nf.2 (by simpa using hmem)

/-! ## Scene properties and operator state

`EEVEEBakerProperties` (`src/properties/baker_properties.py`) holds the
scene-level shared bake state plus the UI configuration read by the
operator.  `IntProperty` values with `min=0` are modelled as `Nat`. -/

structure BakeProps where
  quality_preset : String := "BALANCED"
  show_bake : Bool := false
  force_new_uv : Bool := false
  should_cancel : Bool := false
  output_directory : String := "//texture_projections"
  file_name : String := "Bake_Texture"
  auto_bake : Bool := true
  resolution : Nat := 4096
  seam_bleed : Nat := 2
  progress : Nat := 0
  total_steps : Nat := 0
  is_baking : Bool := false
deriving DecidableEq, Repr

/-- The instance state of `EEVEE_OT_TextureBaker`
(`src/operators/texture_baker.py` lines 9-12) together with the scene
properties and host state it manipulates: `_timer` (present or not),
`projector`, `_camera_angles`, `_current_angle_index`.  The angle list
element type is `Option String × ℤ` because single-shot mode stores
`[(None, 0)]`. -/
structure OpState where
  props : BakeProps
  projector : Projector
  host : HostState
  camera_angles : List (Option String × ℤ)
  current_angle_index : Nat
  timer : Bool
deriving DecidableEq, Repr

/-- Events delivered to the modal handler: the registered timer, or any
other window event. -/
inductive Event where
  | TIMER
  | OTHER
deriving DecidableEq, Repr

/-- Outcome oracle for one angle's host-side processing
(`position_camera` / `setup_viewport` / `project_texture`): either the
block raises at its start (missing object or camera, no 3D viewport, a
mode-switch failure), or it completes and `create_temp_render` records
the given `(image name, file path)` artifact. -/
inductive StepResult where
  | raises
  | succeeds (artifact : String × String)
deriving DecidableEq, Repr

/-- Host calls performed while processing an angle, recorded as an
action trace. -/
inductive BAction where
  | position_camera (h_angle : ℤ) (view_type : Option String)
  | setup_viewport
  | project_texture (angle : String) (current : Nat) (total : Nat)
deriving DecidableEq, Repr

/-- The label `f"{view_type}_{h_angle}"` passed to `project_texture`. -/
def angleLabel (view_type : Option String) (h_angle : ℤ) : String :=
  (match view_type with
   | some s => s
   | none => "None") ++ "_" ++ toString h_angle

/-- Result of one `modal` invocation: a normal return value with the
post-state and action trace, or an uncaught exception propagating to
the host (state as of the raise point, actions performed before it). -/
inductive Outcome where
  | ok (r : String) (s : OpState) (acts : List BAction)
  | raised (s : OpState) (acts : List BAction)
deriving DecidableEq, Repr

/-- The operator state an outcome leaves behind. -/
def Outcome.state : Outcome → OpState
  | .ok _ s _ => s
  | .raised s _ => s

/-- Model of `EEVEE_OT_TextureBaker.cleanup` (`src/operators/texture_baker.py`
lines 114-127): clear `is_baking`, remove the timer if present, run
the projector's cleanup, and in auto-bake mode delete the bake camera
object. -/
def EEVEE_OT_TextureBaker.cleanup (s : OpState) : OpState :=
  let props₁ := { s.props with is_baking := false }
  let timer₁ := false
  let ph := TextureProjector.cleanup s.projector s.host
  let host₂ :=
    if props₁.auto_bake then
      match ph.1.camera with
      | some cam => { ph.2 with objects := ph.2.objects.erase cam }
      | none => ph.2
    else ph.2
  { s with props := props₁, projector := ph.1, host := host₂, timer := timer₁ }

/-- Model of `EEVEE_OT_TextureBaker.modal` (`src/operators/texture_baker.py`
lines 14-48).  `step` is the outcome oracle for the per-angle host
calls, keyed by `_current_angle_index`.  The cancellation check comes
first; a `TIMER` event then either runs the single-shot branch, the
finished check, or one angle's processing.  The per-angle block is not
wrapped in any exception handler in the source, so a raising step
propagates as `Outcome.raised`. -/
def EEVEE_OT_TextureBaker.modal (step : Nat → StepResult) (s : OpState) (ev : Event) :
    Outcome :=
  if s.props.should_cancel then
    let s₁ := EEVEE_OT_TextureBaker.cleanup s
    let s₂ := { s₁ with props := { s₁.props with should_cancel := false } }
    .ok "FINISHED" s₂ []
  else
    match ev with
    | .TIMER =>
      if ¬ s.props.auto_bake then
        match step s.current_angle_index with
        | .raises => .raised s []
        | .succeeds art =>
          let ph := applyRenderArtifact s.projector s.host art
          let s₁ := { s with projector := ph.1, host := ph.2 }
          let s₂ := EEVEE_OT_TextureBaker.cleanup s₁
          .ok "FINISHED" s₂ [.project_texture "0" 1 1]
      else if s.camera_angles.length ≤ s.current_angle_index then
        .ok "FINISHED" (EEVEE_OT_TextureBaker.cleanup s) []
      else
        match s.camera_angles.get? s.current_angle_index with
        | none => .ok "FINISHED" (EEVEE_OT_TextureBaker.cleanup s) []
        | some vh =>
          match step s.current_angle_index with
          | .raises => .raised s []
          | .succeeds art =>
            let ph := applyRenderArtifact s.projector s.host art
            let acts := [BAction.position_camera vh.2 vh.1, BAction.setup_viewport,
                         BAction.project_texture (angleLabel vh.1 vh.2)
                           (s.current_angle_index + 1) s.camera_angles.length]
            let props₁ := { s.props with
                              progress := s.current_angle_index + 1,
                              total_steps := s.camera_angles.length }
            let s₁ := { s with
                          projector := ph.1, host := ph.2, props := props₁,
                          current_angle_index := s.current_angle_index + 1 }
            .ok "PASS_THROUGH" s₁ acts
    | .OTHER => .ok "PASS_THROUGH" s []

/-- Model of `EEVEE_OT_CancelBake.execute` (`src/operators/cancel_bake.py`
lines 9-15): set the cancel flag, clear `is_baking`, reset progress. -/
def EEVEE_OT_CancelBake.execute (props : BakeProps) : BakeProps × String :=
  ({ props with should_cancel := true, is_baking := false, progress := 0 }, "FINISHED")

/-- Host-side effects of the setup calls performed by
`EEVEE_OT_TextureBaker.execute` (lines 92-98 of
`src/operators/texture_baker.py`): `create_bake_image` ensures an
image datablock with the configured name exists, and `setup_camera`
removes any existing object of the camera's name and adds a fresh
one. -/
def setupHost (settings : ProjectionSettings) (h : HostState) : HostState :=
  { h with
      images := if settings.image_name ∈ h.images then h.images
                else h.images ++ [settings.image_name],
      objects := (h.objects.erase settings.camera_name) ++ [settings.camera_name] }

/-- Result of `EEVEE_OT_TextureBaker.execute`: the operator return
value, the operator/scene state, and the interval of the registered
window-manager timer (if one was registered). -/
structure ExecResult where
  ret : String
  state : OpState
  timer_interval : Option ℚ
deriving DecidableEq, Repr

/-- Model of `EEVEE_OT_TextureBaker.execute` (`src/operators/texture_baker.py`
lines 50-111).  `prefsFound` models the addon-preferences lookup;
`setupFails` models an exception anywhere in the settings/projector
setup block, which the `except` clause turns into cleanup plus
`CANCELLED`.  The EEVEE quality-preset writes mutate host render
settings outside the modelled state.  `bpy.path.abspath` is a host
path computation modelled as the identity on the configured
directory. -/
def EEVEE_OT_TextureBaker.execute (prefsFound : Bool) (setupFails : Bool)
    (props₀ : BakeProps) (h : HostState) : ExecResult :=
  let props₁ := { props₀ with is_baking := true, progress := 0, should_cancel := false }
  if ¬ prefsFound then
    { ret := "CANCELLED",
      state := { props := props₁,
                 projector := TextureProjector.init {},
                 host := h, camera_angles := [], current_angle_index := 0,
                 timer := false },
      timer_interval := none }
  else
    let settings : ProjectionSettings :=
      { resolution := props₁.resolution,
        image_name := props₁.file_name,
        output_folder := props₁.output_directory,
        seam_bleed := props₁.seam_bleed }
    if setupFails then
      let s₀ : OpState :=
        { props := props₁, projector := TextureProjector.init settings, host := h,
          camera_angles := [], current_angle_index := 0, timer := false }
      { ret := "CANCELLED", state := EEVEE_OT_TextureBaker.cleanup s₀,
        timer_interval := none }
    else
      let projector := { TextureProjector.init settings with
                           camera := some settings.camera_name }
      let h₁ := setupHost settings h
      if props₁.auto_bake then
        let angles := generate_camera_angles.map (fun vh => (some vh.1, vh.2))
        { ret := "RUNNING_MODAL",
          state := { props := { props₁ with total_steps := angles.length },
                     projector := projector, host := h₁,
                     camera_angles := angles, current_angle_index := 0,
                     timer := true },
          timer_interval := some (1 / 10) }
      else
        { ret := "RUNNING_MODAL",
          state := { props := { props₁ with total_steps := 1 },
                     projector := projector, host := h₁,
                     camera_angles := [(none, 0)], current_angle_index := 0,
                     timer := true },
          timer_interval := some (1 / 10) }

/-! ## `TextureProjector.process` -/

/-- The per-angle loop of `TextureProjector.process`
(`src/utils/projector.py` lines 487-494):
`for idx, (view_type, h_angle) in enumerate(camera_angles, 1)` with the
body wrapped in `try/except` — a raising step only prints the error and
`continue`s; a successful step performs the three host calls and
records the temp artifact.  `step` is keyed by the 1-based `idx`. -/
def processLoop (step : Nat → StepResult) (total : Nat) :
    List (String × ℤ) → Nat → Projector → HostState →
      Projector × HostState × List BAction
  | [], _, p, h => (p, h, [])
  | vh :: rest, idx, p, h =>
    match step idx with
    | .raises => processLoop step total rest (idx + 1) p h
    | .succeeds art =>
      let ph := applyRenderArtifact p h art
      let r := processLoop step total rest (idx + 1) ph.1 ph.2
      (r.1, r.2.1,
       BAction.position_camera vh.2 (some vh.1) :: BAction.setup_viewport ::
       BAction.project_texture (angleLabel (some vh.1) vh.2) idx total :: r.2.2)

/-- The artifacts the loop records: one per successful step, in
order. -/
def successArtifacts (step : Nat → StepResult) :
    List (String × ℤ) → Nat → List (String × String)
  | [], _ => []
  | _ :: rest, idx =>
    match step idx with
    | .raises => successArtifacts step rest (idx + 1)
    | .succeeds art => art :: successArtifacts step rest (idx + 1)

/-- Model of `TextureProjector.process` (`src/utils/projector.py` lines 449-497):
object validation and the setup calls run inside `try`; any exception
there propagates (as `RuntimeError`) — but the `finally` clause runs
`self.cleanup()` first.  Otherwise the per-angle loop over
`generate_camera_angles` runs, followed by the same `finally`
cleanup.  The returned flag records whether the call raised. -/
def TextureProjector.process (setupFails : Bool) (step : Nat → StepResult)
    (p : Projector) (h : HostState) :
    Bool × Projector × HostState × List BAction :=
  if setupFails then
    let ph := TextureProjector.cleanup p h
    (true, ph.1, ph.2, [])
  else
    let r := processLoop step generate_camera_angles.length
               generate_camera_angles 1 p h
    let ph := TextureProjector.cleanup r.1 r.2.1
    (false, ph.1, ph.2, r.2.2)

/-! ### Loop lemmas -/

/-- The loop only appends to `temp_files`: its final recording list is
the initial one extended by the successful artifacts. -/
theorem processLoop_temp_files (step : Nat → StepResult) (total : Nat)
    (angles : List (String × ℤ)) (idx : Nat) (p : Projector) (h : HostState) :
    (processLoop step total angles idx p h).1.temp_files =
      p.temp_files ++ successArtifacts step angles idx := by
  induction angles generalizing idx p h with
  | nil => simp [processLoop, successArtifacts]
  | cons vh rest ih =>
    cases hstep : step idx with
    | raises => simp [processLoop, successArtifacts, hstep, ih]
    | succeeds art =>
      simp [processLoop, successArtifacts, hstep, ih, applyRenderArtifact,
        List.append_assoc]

/-- The loop preserves a duplicate-free disk listing. -/
theorem processLoop_files_nodup (step : Nat → StepResult) (total : Nat)
    (angles : List (String × ℤ)) (idx : Nat) (p : Projector) (h : HostState)
    (hnd : h.files.Nodup) :
    (processLoop step total angles idx p h).2.1.files.Nodup := by
  induction angles generalizing idx p h with
  | nil => simpa [processLoop]
  | cons vh rest ih =>
    cases hstep : step idx with
    | raises => simp only [processLoop, hstep]; exact ih _ _ _ hnd
    | succeeds art =>
      simp only [processLoop, hstep]
      exact ih _ _ _ (addFile_nodup _ _ hnd)

/-- The loop leaves the settings untouched. -/
theorem processLoop_settings (step : Nat → StepResult) (total : Nat)
    (angles : List (String × ℤ)) (idx : Nat) (p : Projector) (h : HostState) :
    (processLoop step total angles idx p h).1.settings = p.settings := by
  induction angles generalizing idx p h with
  | nil => simp [processLoop]
  | cons vh rest ih =>
    cases hstep : step idx with
    | raises => simp only [processLoop, hstep]; exact ih _ _ _
    | succeeds art =>
      simp only [processLoop, hstep]
      exact ih _ _ _

/-- Every angle after a failed one is still processed: a successful
step at any position contributes its `project_texture` call to the
trace, no matter what earlier steps did. -/
theorem processLoop_continues (step : Nat → StepResult) (total : Nat)
    (angles : List (String × ℤ)) (idx : Nat) (p : Projector) (h : HostState)
    (k : Nat) (vh : String × ℤ) (hk : angles.get? k = some vh)
    (art : String × String) (hstep : step (idx + k) = .succeeds art) :
    BAction.project_texture (angleLabel (some vh.1) vh.2) (idx + k) total ∈
      (processLoop step total angles idx p h).2.2 := by
  induction angles generalizing idx p h k with
  | nil => cases hk
  | cons vh₀ rest ih =>
    cases k with
    | zero =>
      simp only [List.get?_cons_zero, Option.some_inj] at hk
      subst hk
      simp only [Nat.add_zero] at hstep
      simp [processLoop, hstep]
    | succ k' =>
      simp only [List.get?_cons_succ] at hk
      have hstep' : step (idx + 1 + k') = .succeeds art := by
        rw [Nat.add_right_comm]
        simpa [Nat.add_assoc, Nat.add_comm] using hstep
      have hmem := ih _ p h k' hk hstep'
      cases hstep₀ : step idx with
      | raises =>
        simp only [processLoop, hstep₀]
        have : idx + (k' + 1) = idx + 1 + k' := by omega
        rw [this]
        exact ih _ p h k' hk hstep'
      | succeeds art₀ =>
        simp only [processLoop, hstep₀]
        have : idx + (k' + 1) = idx + 1 + k' := by omega
        rw [this]
        exact List.mem_cons_of_mem _ (List.mem_cons_of_mem _
          (List.mem_cons_of_mem _ (ih _ _ _ k' hk hstep')))

/-! ### Operator cleanup facts -/

/-- The operator's `cleanup` delegates artifact removal to the
projector's `cleanup`, clears `is_baking` and the timer, and leaves
the cancel flag alone (only object deletion differs between auto and
single-shot modes). -/
theorem opCleanup_spec (s : OpState) :
    (EEVEE_OT_TextureBaker.cleanup s).projector =
      (TextureProjector.cleanup s.projector s.host).1 ∧
    (EEVEE_OT_TextureBaker.cleanup s).host.images =
      (TextureProjector.cleanup s.projector s.host).2.images ∧
    (EEVEE_OT_TextureBaker.cleanup s).host.files =
      (TextureProjector.cleanup s.projector s.host).2.files ∧
    (EEVEE_OT_TextureBaker.cleanup s).props.is_baking = false ∧
    (EEVEE_OT_TextureBaker.cleanup s).props.should_cancel = s.props.should_cancel ∧
    (EEVEE_OT_TextureBaker.cleanup s).timer = false := by
  unfold EEVEE_OT_TextureBaker.cleanup
  dsimp only
  refine ⟨rfl, ?_, ?_, rfl, rfl, rfl⟩ <;>
  · split
    · split <;> rfl
    · rfl

/-- C2 (amended): whenever cleanup runs, every artifact recorded in
`temp_files` is removed — image datablock and file — and `temp_files`
is emptied (on a duplicate-free disk listing); cleanup does run at the
end of `TextureProjector.process` both on its normal path and when
setup raises, and on the modal tick that observes cancellation.  (The
original claim fails because a run can also end by an exception
escaping the modal handler's per-angle block, which reaches no cleanup
at all; see the counterexample.) -/
theorem cleanup_invariant_amended
    (p : Projector) (h : HostState) (hnd : h.files.Nodup)
    (sf : Bool) (step₂ : Nat → StepResult) (p₂ : Projector) (h₂ : HostState)
    (hnd₂ : h₂.files.Nodup)
    (step₃ : Nat → StepResult) (s : OpState) (ev : Event)
    (hc : s.props.should_cancel = true) (hnd₃ : s.host.files.Nodup) :
    ((TextureProjector.cleanup p h).1.temp_files = [] ∧
      ∀ nf ∈ p.temp_files,
        nf.1 ∉ (TextureProjector.cleanup p h).2.images ∧
        nf.2 ∉ (TextureProjector.cleanup p h).2.files) ∧
    ((TextureProjector.process sf step₂ p₂ h₂).2.1.temp_files = [] ∧
      (sf = false →
        ∀ nf ∈ (processLoop step₂ generate_camera_angles.length
                  generate_camera_angles 1 p₂ h₂).1.temp_files,
          nf.1 ∉ (TextureProjector.process sf step₂ p₂ h₂).2.2.1.images ∧
          nf.2 ∉ (TextureProjector.process sf step₂ p₂ h₂).2.2.1.files)) ∧
    ((EEVEE_OT_TextureBaker.modal step₃ s ev).state.projector.temp_files = [] ∧
      ∀ nf ∈ s.projector.temp_files,
        nf.1 ∉ (EEVEE_OT_TextureBaker.modal step₃ s ev).state.host.images ∧
        nf.2 ∉ (EEVEE_OT_TextureBaker.modal step₃ s ev).state.host.files) := by
  refine ⟨cleanup_removes_all p h hnd, ?_, ?_⟩
  · cases sf with
    | true =>
      refine ⟨(cleanup_removes_all p₂ h₂ hnd₂).1, ?_⟩
      intro hcontra
      cases hcontra
    | false =>
      have hnd' := processLoop_files_nodup step₂ generate_camera_angles.length
        generate_camera_angles 1 p₂ h₂ hnd₂
      have := cleanup_removes_all
        (processLoop step₂ generate_camera_angles.length generate_camera_angles 1 p₂ h₂).1
        (processLoop step₂ generate_camera_angles.length generate_camera_angles 1 p₂ h₂).2.1
        hnd'
      refine ⟨?_, fun _ => ?_⟩
      · simpa [TextureProjector.process] using this.1
      · simpa [TextureProjector.process] using this.2
  · have hspec := opCleanup_spec s
    have hrem := cleanup_removes_all s.projector s.host hnd₃
    simp only [EEVEE_OT_TextureBaker.modal, hc, if_true, Outcome.state]
    refine ⟨?_, ?_⟩
    · rw [hspec.1]
      exact hrem.1
    · intro nf hnf
      rw [hspec.2.1, hspec.2.2.1]
      exact hrem.2 nf hnf

/-- Concrete auto-bake run state mid-way through its second angle,
with one temp artifact recorded by the first tick. -/
def fixtureLeakState : OpState :=
  { props := { auto_bake := true, should_cancel := false, is_baking := true },
    projector := { settings := {},
                   temp_files := [("tmpimg", "tmppath")],
                   original_nodes := [], camera := some "BakeCamera" },
    host := { images := ["tmpimg"], files := ["tmppath"], objects := ["BakeCamera"] },
    camera_angles := [(some "below", 0), (some "below", 90)],
    current_angle_index := 1, timer := true }

/-- C2 counterexample: a bake run that ends by an exception escaping
the modal handler's per-angle processing — the handler has no
`try`/`except` around `position_camera`/`setup_viewport`/
`project_texture` — terminates with a recorded artifact whose image
datablock and file are still present and with `temp_files` non-empty:
no cleanup happened. -/
theorem cleanup_invariant_counterexample :
    EEVEE_OT_TextureBaker.modal (fun _ => .raises) fixtureLeakState .TIMER =
      .raised fixtureLeakState [] ∧
    (EEVEE_OT_TextureBaker.modal (fun _ => .raises) fixtureLeakState
      .TIMER).state.projector.temp_files = [("tmpimg", "tmppath")] ∧
    "tmpimg" ∈ (EEVEE_OT_TextureBaker.modal (fun _ => .raises) fixtureLeakState
      .TIMER).state.host.images ∧
    "tmppath" ∈ (EEVEE_OT_TextureBaker.modal (fun _ => .raises) fixtureLeakState
      .TIMER).state.host.files := by
  refine ⟨rfl, rfl, ?_, ?_⟩ <;> decide

/-- A small concrete run configuration used by witness theorems. -/
def fixtureProjector : Projector :=
  { settings := {}, temp_files := [("i", "f")], original_nodes := [],
    camera := some "BakeCamera" }

/-- Concrete host with the fixture's artifact present. -/
def fixtureHost : HostState :=
  { images := ["i"], files := ["f"], objects := ["BakeCamera"] }

/-- A step oracle that always raises. -/
def fixtureStepRaises : Nat → StepResult := fun _ => StepResult.raises

/-- A step oracle that always succeeds with a fixed artifact. -/
def fixtureStepOk : Nat → StepResult := fun _ => StepResult.succeeds ("r", "q")

/-- Concrete operator state with the cancel flag raised mid-run. -/
def fixtureCancelState : OpState :=
  { props := { should_cancel := true, is_baking := true },
    projector := fixtureProjector, host := fixtureHost,
    camera_angles := [(some "below", 0)], current_angle_index := 0, timer := true }

/-- Witness for the amended C2 theorem at the concrete fixtures. -/
theorem cleanup_invariant_amended_witness :
    fixtureHost.files.Nodup ∧
    (((TextureProjector.cleanup fixtureProjector fixtureHost).1.temp_files = [] ∧
      ∀ nf ∈ fixtureProjector.temp_files,
        nf.1 ∉ (TextureProjector.cleanup fixtureProjector fixtureHost).2.images ∧
        nf.2 ∉ (TextureProjector.cleanup fixtureProjector fixtureHost).2.files) ∧
    ((TextureProjector.process false fixtureStepRaises fixtureProjector fixtureHost).2.1.temp_files = [] ∧
      (false = false →
        ∀ nf ∈ (processLoop fixtureStepRaises generate_camera_angles.length
                  generate_camera_angles 1 fixtureProjector fixtureHost).1.temp_files,
          nf.1 ∉ (TextureProjector.process false fixtureStepRaises fixtureProjector fixtureHost).2.2.1.images ∧
          nf.2 ∉ (TextureProjector.process false fixtureStepRaises fixtureProjector fixtureHost).2.2.1.files)) ∧
    ((EEVEE_OT_TextureBaker.modal fixtureStepRaises fixtureCancelState .OTHER).state.projector.temp_files = [] ∧
      ∀ nf ∈ fixtureCancelState.projector.temp_files,
        nf.1 ∉ (EEVEE_OT_TextureBaker.modal fixtureStepRaises fixtureCancelState .OTHER).state.host.images ∧
        nf.2 ∉ (EEVEE_OT_TextureBaker.modal fixtureStepRaises fixtureCancelState .OTHER).state.host.files)) :=
  ⟨by decide,
   cleanup_invariant_amended fixtureProjector fixtureHost (by decide)
     false fixtureStepRaises fixtureProjector fixtureHost (by decide)
     fixtureStepRaises fixtureCancelState .OTHER (by decide) (by decide)⟩

/-- C4 (amended): in `TextureProjector.process`'s per-angle loop a
raising angle is skipped — the loop state passes through unchanged and
the remaining angles are all still processed, any later successful
angle contributing its projection to the trace.  In the modal
handler's per-angle block, however, there is no exception handler: a
raising step propagates out of `modal` uncaught, with the state as it
was at the start of the tick, so the remaining angles are not reached
on that path. -/
theorem per_angle_failure_amended
    (step : Nat → StepResult) (total : Nat) (vh₀ : String × ℤ)
    (rest : List (String × ℤ)) (idx : Nat) (p : Projector) (h : HostState)
    (hfail : step idx = .raises)
    (step₂ : Nat → StepResult) (angles : List (String × ℤ)) (idx' : Nat)
    (p' : Projector) (h' : HostState)
    (k : Nat) (vh : String × ℤ) (hk : angles.get? k = some vh)
    (art : String × String) (hsucc : step₂ (idx' + k) = .succeeds art)
    (step₃ : Nat → StepResult) (s : OpState)
    (hnc : s.props.should_cancel = false)
    (hauto : s.props.auto_bake = true)
    (hidx : s.current_angle_index < s.camera_angles.length)
    (hraise : step₃ s.current_angle_index = .raises) :
    processLoop step total (vh₀ :: rest) idx p h =
      processLoop step total rest (idx + 1) p h ∧
    BAction.project_texture (angleLabel (some vh.1) vh.2) (idx' + k) total ∈
      (processLoop step₂ total angles idx' p' h').2.2 ∧
    EEVEE_OT_TextureBaker.modal step₃ s .TIMER = .raised s [] := by
  refine ⟨?_, processLoop_continues step₂ total angles idx' p' h' k vh hk art hsucc, ?_⟩
  · simp [processLoop, hfail]
  · have hlen : ¬ s.camera_angles.length ≤ s.current_angle_index :=
      Nat.not_le_of_lt hidx
    obtain ⟨vh', hvh'⟩ : ∃ vh', s.camera_angles.get? s.current_angle_index = some vh' :=
      ⟨_, List.get?_eq_get hidx⟩
    simp only [List.get?_eq_getElem?] at hvh'
    simp [EEVEE_OT_TextureBaker.modal, hnc, hauto, hlen, hvh', hraise]

/-- Concrete auto-bake mid-run state used by the C4 witness and
counterexample: two angles, the first about to be processed. -/
def fixtureMidRunState : OpState :=
  { props := { auto_bake := true, should_cancel := false, is_baking := true },
    projector := { settings := {}, temp_files := [], original_nodes := [],
                   camera := some "BakeCamera" },
    host := { images := [], files := [], objects := ["BakeCamera"] },
    camera_angles := [(some "below", 0), (some "below", 90)],
    current_angle_index := 0, timer := true }

/-- Witness for the amended C4 theorem at concrete inputs: a raising
first step is skipped by `processLoop`, a successful second angle still
projects, and the same raising step escapes `modal` uncaught. -/
theorem per_angle_failure_amended_witness :
    (fixtureStepRaises 1 = .raises ∧
     [("below", (0 : ℤ)), ("below", 90)].get? 1 = some ("below", 90) ∧
     fixtureStepOk (1 + 1) = .succeeds ("r", "q") ∧
     fixtureMidRunState.props.should_cancel = false ∧
     fixtureMidRunState.props.auto_bake = true ∧
     fixtureMidRunState.current_angle_index < fixtureMidRunState.camera_angles.length ∧
     fixtureStepRaises fixtureMidRunState.current_angle_index = .raises) ∧
    (processLoop fixtureStepRaises 12 ([("below", 0)] ++ [("below", 90)]) 1
        fixtureProjector fixtureHost =
      processLoop fixtureStepRaises 12 [("below", 90)] (1 + 1)
        fixtureProjector fixtureHost ∧
     BAction.project_texture (angleLabel (some "below") 90) (1 + 1) 12 ∈
      (processLoop fixtureStepOk 12 [("below", (0 : ℤ)), ("below", 90)] 1
        fixtureProjector fixtureHost).2.2 ∧
     EEVEE_OT_TextureBaker.modal fixtureStepRaises fixtureMidRunState .TIMER =
       .raised fixtureMidRunState []) :=
  ⟨⟨rfl, rfl, rfl, rfl, rfl, by decide, rfl⟩,
   per_angle_failure_amended fixtureStepRaises 12 ("below", 0) [("below", 90)] 1
     fixtureProjector fixtureHost rfl
     fixtureStepOk [("below", (0 : ℤ)), ("below", 90)] 1 fixtureProjector fixtureHost
     1 ("below", 90) rfl ("r", "q") rfl
     fixtureStepRaises fixtureMidRunState rfl rfl (by decide) rfl⟩

/-- C4 counterexample: with the first angle's processing raising, the
modal handler neither logs-and-skips nor continues — the exception
escapes the handler and the angle index does not advance, so the
remaining angles of the sequence are not processed by it. -/
theorem per_angle_failure_counterexample :
    EEVEE_OT_TextureBaker.modal fixtureStepRaises fixtureMidRunState .TIMER =
      .raised fixtureMidRunState [] ∧
    (EEVEE_OT_TextureBaker.modal fixtureStepRaises fixtureMidRunState .TIMER).state.current_angle_index = 0 ∧
    fixtureMidRunState.camera_angles.length = 2 := by
  refine ⟨rfl, rfl, rfl⟩

/-- A successful auto-bake timer tick, written out: the three host
calls run for the current angle, the artifact is recorded, progress
and total-steps properties are written, and the index advances. -/
theorem modal_success_tick (step : Nat → StepResult) (s : OpState)
    (vh : Option String × ℤ) (art : String × String)
    (hnc : s.props.should_cancel = false)
    (hauto : s.props.auto_bake = true)
    (hidx : s.current_angle_index < s.camera_angles.length)
    (hvh : s.camera_angles.get? s.current_angle_index = some vh)
    (hstep : step s.current_angle_index = .succeeds art) :
    EEVEE_OT_TextureBaker.modal step s .TIMER =
      .ok "PASS_THROUGH"
        { s with
            projector := (applyRenderArtifact s.projector s.host art).1,
            host := (applyRenderArtifact s.projector s.host art).2,
            props := { s.props with
                         progress := s.current_angle_index + 1,
                         total_steps := s.camera_angles.length },
            current_angle_index := s.current_angle_index + 1 }
        [.position_camera vh.2 vh.1, .setup_viewport,
         .project_texture (angleLabel vh.1 vh.2) (s.current_angle_index + 1)
           s.camera_angles.length] := by
  have hlen : ¬ s.camera_angles.length ≤ s.current_angle_index :=
    Nat.not_le_of_lt hidx
  rw [List.get?_eq_getElem?] at hvh
  simp [EEVEE_OT_TextureBaker.modal, hnc, hauto, hlen, hvh, hstep]

/-- A successful single-shot timer tick, written out: one projection
from the current camera position, then the operator's cleanup. -/
theorem modal_single_shot (step : Nat → StepResult) (s : OpState)
    (art : String × String)
    (hnc : s.props.should_cancel = false)
    (hab : s.props.auto_bake = false)
    (hstep : step s.current_angle_index = .succeeds art) :
    EEVEE_OT_TextureBaker.modal step s .TIMER =
      .ok "FINISHED"
        (EEVEE_OT_TextureBaker.cleanup
          { s with projector := (applyRenderArtifact s.projector s.host art).1,
                   host := (applyRenderArtifact s.projector s.host art).2 })
        [.project_texture "0" 1 1] := by
  simp [EEVEE_OT_TextureBaker.modal, hnc, hab, hstep]

/-- C3: cancellation is polled, not preemptive.  The cancel operator
only sets the shared flag; on any modal invocation with the flag set —
whatever the event — the handler runs cleanup, resets the flag and
finishes with an empty action trace (no camera positioning, no
projection); and a tick that starts with the flag clear processes its
whole angle: the flag is only ever observed at the tick boundary. -/
theorem cancellation_polled_each_tick
    (props : BakeProps)
    (step : Nat → StepResult) (s : OpState) (ev : Event)
    (hc : s.props.should_cancel = true)
    (step₂ : Nat → StepResult) (s₂ : OpState) (vh : Option String × ℤ)
    (art : String × String)
    (hnc₂ : s₂.props.should_cancel = false)
    (hauto₂ : s₂.props.auto_bake = true)
    (hidx₂ : s₂.current_angle_index < s₂.camera_angles.length)
    (hvh₂ : s₂.camera_angles.get? s₂.current_angle_index = some vh)
    (hstep₂ : step₂ s₂.current_angle_index = .succeeds art) :
    ((EEVEE_OT_CancelBake.execute props).1.should_cancel = true ∧
      (EEVEE_OT_CancelBake.execute props).2 = "FINISHED") ∧
    (∃ s', EEVEE_OT_TextureBaker.modal step s ev = .ok "FINISHED" s' [] ∧
      s'.props.should_cancel = false ∧ s'.props.is_baking = false ∧
      s'.projector.temp_files = [] ∧ s'.timer = false) ∧
    (∃ s', EEVEE_OT_TextureBaker.modal step₂ s₂ .TIMER = .ok "PASS_THROUGH" s'
      [.position_camera vh.2 vh.1, .setup_viewport,
       .project_texture (angleLabel vh.1 vh.2) (s₂.current_angle_index + 1)
         s₂.camera_angles.length]) := by
  have hspec := opCleanup_spec s
  refine ⟨⟨rfl, rfl⟩, ?_, ?_⟩
  · simp only [EEVEE_OT_TextureBaker.modal, hc, if_true]
    refine ⟨_, rfl, rfl, ?_, ?_, ?_⟩
    · exact hspec.2.2.2.1
    · rw [hspec.1, cleanup_eq]
    · exact hspec.2.2.2.2.2
  · exact ⟨_, modal_success_tick step₂ s₂ vh art hnc₂ hauto₂ hidx₂ hvh₂ hstep₂⟩

/-- Witness for C3 at concrete inputs. -/
theorem cancellation_polled_each_tick_witness :
    (fixtureCancelState.props.should_cancel = true ∧
     fixtureMidRunState.props.should_cancel = false ∧
     fixtureMidRunState.props.auto_bake = true ∧
     fixtureMidRunState.current_angle_index < fixtureMidRunState.camera_angles.length ∧
     fixtureMidRunState.camera_angles.get? fixtureMidRunState.current_angle_index =
       some (some "below", 0) ∧
     fixtureStepOk fixtureMidRunState.current_angle_index = .succeeds ("r", "q")) ∧
    (((EEVEE_OT_CancelBake.execute {}).1.should_cancel = true ∧
      (EEVEE_OT_CancelBake.execute {}).2 = "FINISHED") ∧
    (∃ s', EEVEE_OT_TextureBaker.modal fixtureStepOk fixtureCancelState .TIMER =
        .ok "FINISHED" s' [] ∧
      s'.props.should_cancel = false ∧ s'.props.is_baking = false ∧
      s'.projector.temp_files = [] ∧ s'.timer = false) ∧
    (∃ s', EEVEE_OT_TextureBaker.modal fixtureStepOk fixtureMidRunState .TIMER =
        .ok "PASS_THROUGH" s'
      [.position_camera (0 : ℤ) (some "below"), .setup_viewport,
       .project_texture (angleLabel (some "below") 0)
         (fixtureMidRunState.current_angle_index + 1)
         fixtureMidRunState.camera_angles.length])) :=
  ⟨⟨rfl, rfl, rfl, by decide, rfl, rfl⟩,
   cancellation_polled_each_tick {} fixtureStepOk fixtureCancelState .TIMER rfl
     fixtureStepOk fixtureMidRunState (some "below", 0) ("r", "q")
     rfl rfl (by decide) rfl rfl⟩

/-- C5: auto-bake stepping.  `execute` in auto mode registers the
window-manager timer with a 0.1-second interval and the full 12-angle
plan; a processing tick (flag clear, angle available, host calls
succeed) performs exactly one angle's three host calls and increments
both the angle index and the progress property by exactly one; a tick
whose index has reached the angle count finishes (after cleanup)
instead. -/
theorem auto_bake_tick_progress
    (props₀ : BakeProps) (h₀ : HostState) (hauto₀ : props₀.auto_bake = true)
    (step : Nat → StepResult) (s : OpState) (vh : Option String × ℤ)
    (art : String × String)
    (hnc : s.props.should_cancel = false)
    (hauto : s.props.auto_bake = true)
    (hidx : s.current_angle_index < s.camera_angles.length)
    (hvh : s.camera_angles.get? s.current_angle_index = some vh)
    (hstep : step s.current_angle_index = .succeeds art)
    (hprog : s.props.progress = s.current_angle_index)
    (step₃ : Nat → StepResult) (s₃ : OpState)
    (hnc₃ : s₃.props.should_cancel = false)
    (hauto₃ : s₃.props.auto_bake = true)
    (hdone : s₃.camera_angles.length ≤ s₃.current_angle_index) :
    ((EEVEE_OT_TextureBaker.execute true false props₀ h₀).ret = "RUNNING_MODAL" ∧
      (EEVEE_OT_TextureBaker.execute true false props₀ h₀).timer_interval = some (1 / 10) ∧
      (EEVEE_OT_TextureBaker.execute true false props₀ h₀).state.camera_angles.length = 12 ∧
      (EEVEE_OT_TextureBaker.execute true false props₀ h₀).state.props.total_steps = 12 ∧
      (EEVEE_OT_TextureBaker.execute true false props₀ h₀).state.current_angle_index = 0 ∧
      (EEVEE_OT_TextureBaker.execute true false props₀ h₀).state.props.progress = 0) ∧
    (∃ s', EEVEE_OT_TextureBaker.modal step s .TIMER = .ok "PASS_THROUGH" s'
        [.position_camera vh.2 vh.1, .setup_viewport,
         .project_texture (angleLabel vh.1 vh.2) (s.current_angle_index + 1)
           s.camera_angles.length] ∧
      s'.current_angle_index = s.current_angle_index + 1 ∧
      s'.props.progress = s.props.progress + 1 ∧
      s'.props.total_steps = s.camera_angles.length) ∧
    EEVEE_OT_TextureBaker.modal step₃ s₃ .TIMER =
      .ok "FINISHED" (EEVEE_OT_TextureBaker.cleanup s₃) [] := by
  refine ⟨?_, ?_, ?_⟩
  · simp [EEVEE_OT_TextureBaker.execute, hauto₀, generate_camera_angles]
  · refine ⟨_, modal_success_tick step s vh art hnc hauto hidx hvh hstep, rfl, ?_, rfl⟩
    simp [hprog]
  · simp [EEVEE_OT_TextureBaker.modal, hnc₃, hauto₃, hdone]

/-- Concrete finished-run state for the C5 witness. -/
def fixtureDoneState : OpState :=
  { fixtureMidRunState with current_angle_index := 2 }

/-- Witness for C5 at concrete inputs. -/
theorem auto_bake_tick_progress_witness :
    (({ auto_bake := true } : BakeProps).auto_bake = true ∧
     fixtureMidRunState.props.should_cancel = false ∧
     fixtureMidRunState.props.auto_bake = true ∧
     fixtureMidRunState.current_angle_index < fixtureMidRunState.camera_angles.length ∧
     fixtureMidRunState.camera_angles.get? fixtureMidRunState.current_angle_index =
       some (some "below", 0) ∧
     fixtureStepOk fixtureMidRunState.current_angle_index = .succeeds ("r", "q") ∧
     fixtureMidRunState.props.progress = fixtureMidRunState.current_angle_index ∧
     fixtureDoneState.props.should_cancel = false ∧
     fixtureDoneState.props.auto_bake = true ∧
     fixtureDoneState.camera_angles.length ≤ fixtureDoneState.current_angle_index) ∧
    (((EEVEE_OT_TextureBaker.execute true false { auto_bake := true } fixtureHost).ret = "RUNNING_MODAL" ∧
      (EEVEE_OT_TextureBaker.execute true false { auto_bake := true } fixtureHost).timer_interval = some (1 / 10) ∧
      (EEVEE_OT_TextureBaker.execute true false { auto_bake := true } fixtureHost).state.camera_angles.length = 12 ∧
      (EEVEE_OT_TextureBaker.execute true false { auto_bake := true } fixtureHost).state.props.total_steps = 12 ∧
      (EEVEE_OT_TextureBaker.execute true false { auto_bake := true } fixtureHost).state.current_angle_index = 0 ∧
      (EEVEE_OT_TextureBaker.execute true false { auto_bake := true } fixtureHost).state.props.progress = 0) ∧
    (∃ s', EEVEE_OT_TextureBaker.modal fixtureStepOk fixtureMidRunState .TIMER =
        .ok "PASS_THROUGH" s'
        [.position_camera (0 : ℤ) (some "below"), .setup_viewport,
         .project_texture (angleLabel (some "below") 0)
           (fixtureMidRunState.current_angle_index + 1)
           fixtureMidRunState.camera_angles.length] ∧
      s'.current_angle_index = fixtureMidRunState.current_angle_index + 1 ∧
      s'.props.progress = fixtureMidRunState.props.progress + 1 ∧
      s'.props.total_steps = fixtureMidRunState.camera_angles.length) ∧
    EEVEE_OT_TextureBaker.modal fixtureStepOk fixtureDoneState .TIMER =
      .ok "FINISHED" (EEVEE_OT_TextureBaker.cleanup fixtureDoneState) []) :=
  ⟨⟨rfl, rfl, rfl, by decide, rfl, rfl, rfl, rfl, rfl, by decide⟩,
   auto_bake_tick_progress { auto_bake := true } fixtureHost rfl
     fixtureStepOk fixtureMidRunState (some "below", 0) ("r", "q")
     rfl rfl (by decide) rfl rfl rfl
     fixtureStepOk fixtureDoneState rfl rfl (by decide)⟩

/-- C10: single-shot mode.  With `auto_bake` off, `execute` still
registers the 0.1-second modal timer and sets `total_steps` to 1; the
first timer tick then performs exactly one `project_texture` call —
with no camera positioning or view-category iteration, so from the
camera's current position — runs cleanup, and finishes. -/
theorem single_shot_mode
    (props₀ : BakeProps) (h₀ : HostState) (hab₀ : props₀.auto_bake = false)
    (step : Nat → StepResult) (s : OpState) (art : String × String)
    (hnc : s.props.should_cancel = false)
    (hab : s.props.auto_bake = false)
    (hstep : step s.current_angle_index = .succeeds art) :
    ((EEVEE_OT_TextureBaker.execute true false props₀ h₀).ret = "RUNNING_MODAL" ∧
      (EEVEE_OT_TextureBaker.execute true false props₀ h₀).timer_interval = some (1 / 10) ∧
      (EEVEE_OT_TextureBaker.execute true false props₀ h₀).state.props.total_steps = 1 ∧
      (EEVEE_OT_TextureBaker.execute true false props₀ h₀).state.timer = true) ∧
    (∃ s', EEVEE_OT_TextureBaker.modal step s .TIMER =
        .ok "FINISHED" s' [.project_texture "0" 1 1] ∧
      s'.projector.temp_files = [] ∧ s'.props.is_baking = false ∧
      s'.timer = false) := by
  refine ⟨?_, ?_⟩
  · simp [EEVEE_OT_TextureBaker.execute, hab₀]
  · refine ⟨_, modal_single_shot step s art hnc hab hstep, ?_, ?_, ?_⟩
    · have hspec := opCleanup_spec
        { s with projector := (applyRenderArtifact s.projector s.host art).1,
                 host := (applyRenderArtifact s.projector s.host art).2 }
      rw [hspec.1, cleanup_eq]
    · exact (opCleanup_spec _).2.2.2.1
    · exact (opCleanup_spec _).2.2.2.2.2

/-- Concrete single-shot state for the C10 witness. -/
def fixtureSingleState : OpState :=
  { props := { auto_bake := false, should_cancel := false, is_baking := true },
    projector := { settings := {}, temp_files := [], original_nodes := [],
                   camera := some "BakeCamera" },
    host := { images := [], files := [], objects := ["BakeCamera"] },
    camera_angles := [(none, 0)], current_angle_index := 0, timer := true }

/-- Witness for C10 at concrete inputs. -/
theorem single_shot_mode_witness :
    (({ auto_bake := false } : BakeProps).auto_bake = false ∧
     fixtureSingleState.props.should_cancel = false ∧
     fixtureSingleState.props.auto_bake = false ∧
     fixtureStepOk fixtureSingleState.current_angle_index = .succeeds ("r", "q")) ∧
    (((EEVEE_OT_TextureBaker.execute true false { auto_bake := false } fixtureHost).ret = "RUNNING_MODAL" ∧
      (EEVEE_OT_TextureBaker.execute true false { auto_bake := false } fixtureHost).timer_interval = some (1 / 10) ∧
      (EEVEE_OT_TextureBaker.execute true false { auto_bake := false } fixtureHost).state.props.total_steps = 1 ∧
      (EEVEE_OT_TextureBaker.execute true false { auto_bake := false } fixtureHost).state.timer = true) ∧
    (∃ s', EEVEE_OT_TextureBaker.modal fixtureStepOk fixtureSingleState .TIMER =
        .ok "FINISHED" s' [.project_texture "0" 1 1] ∧
      s'.projector.temp_files = [] ∧ s'.props.is_baking = false ∧
      s'.timer = false)) :=
  ⟨⟨rfl, rfl, rfl, rfl⟩,
   single_shot_mode { auto_bake := false } fixtureHost rfl
     fixtureStepOk fixtureSingleState ("r", "q") rfl rfl rfl⟩

/-! ## Material node graphs -/

/-- A shader node: its name, its type, and how many output sockets it
has (the toggle operator stores an output-socket index and checks it
against the node's outputs on restore). -/
structure BNode where
  name : String
  ntype : String
  outputsCount : Nat
deriving DecidableEq, Repr

/-- A material's node graph as the claims see it: identity key of the
material datablock, the `use_nodes` flag, the node list, the single
link into the Material Output's `Surface` input (source node name and
output-socket index, if linked), and the material's custom (`id`)
properties — here only `"original_connection"`, holding a node name
and socket index. -/
structure Material where
  matKey : String
  use_nodes : Bool
  nodes : List BNode
  surface_link : Option (String × Nat)
  id_props : List (String × (String × Nat))
deriving DecidableEq, Repr

/-- Association-list lookup (Python `dict`/`in` containment). -/
def alookup {α : Type} : List (String × α) → String → Option α
  | [], _ => none
  | kv :: rest, k => if kv.1 = k then some kv.2 else alookup rest k

/-- Find a node by name (`nodes.get(name)`). -/
def findNode (mat : Material) (name : String) : Option BNode :=
  mat.nodes.find? (fun n => n.name = name)

/-- Model of `TextureProjector.setup_material_nodes`
(`src/utils/projector.py` lines 170-219) acting on the first material:
enables nodes; captures the original node list and originally
connected Surface node into `original_nodes` only when the material
has no entry there yet; then ensures the `Bake_UV` and `Bake_Texture`
nodes exist (re-pointing the texture node's image is a host-side
effect outside the node-list model). -/
def setup_material_nodes (p : Projector) (mat : Material) : Projector × Material :=
  let mat₀ := { mat with use_nodes := true }
  let p₁ :=
    if alookup p.original_nodes mat₀.matKey = none then
      let output_connection :=
        match findNode mat₀ "Material Output", mat₀.surface_link with
        | some _, some link => some link.1
        | _, _ => none
      { p with original_nodes := p.original_nodes ++
          [(mat₀.matKey, (mat₀.nodes.map (fun n => (n.name, n.ntype)), output_connection))] }
    else p
  let mat₁ :=
    if findNode mat₀ "Bake_UV" = none then
      { mat₀ with nodes := mat₀.nodes ++ [⟨"Bake_UV", "UVMAP", 1⟩] }
    else mat₀
  let mat₂ :=
    if findNode mat₁ "Bake_Texture" = none then
      { mat₁ with nodes := mat₁.nodes ++ [⟨"Bake_Texture", "TEX_IMAGE", 1⟩] }
    else mat₁
  (p₁, mat₂)

/-- Model of `EEVEE_OT_ToggleBakePreview.toggle_material_nodes`
(`src/operators/toggle_bake.py` lines 23-84): when showing the bake
and no `original_connection` property exists yet and the currently
connected Surface node is not `Bake_Texture`, save that connection;
then clear the Surface links and reconnect — to `Bake_Texture` when
showing the bake, otherwise to the saved original node (falling back
to `Bake_Texture` when the saved node or socket no longer exists). -/
def toggle_material_nodes (mat : Material) (show_bake : Bool) : Material :=
  if ¬ mat.use_nodes then mat
  else
    match findNode mat "Bake_Texture", findNode mat "Material Output" with
    | some _, some _ =>
      let mat₁ :=
        if show_bake ∧ alookup mat.id_props "original_connection" = none then
          match mat.surface_link with
          | some link =>
            if link.1 ≠ "Bake_Texture" then
              { mat with id_props := mat.id_props ++ [("original_connection", link)] }
            else mat
          | none => mat
        else mat
      let mat₂ := { mat₁ with surface_link := none }
      if show_bake then
        { mat₂ with surface_link := some ("Bake_Texture", 0) }
      else
        match alookup mat₂.id_props "original_connection" with
        | some conn =>
          match findNode mat₂ conn.1 with
          | some node =>
            if conn.2 < node.outputsCount then
              { mat₂ with surface_link := some conn }
            else
              { mat₂ with surface_link := some ("Bake_Texture", 0) }
          | none => { mat₂ with surface_link := some ("Bake_Texture", 0) }
        | none => { mat₂ with surface_link := some ("Bake_Texture", 0) }
    | _, _ => mat

/-! ### Capture lemmas -/

/-- Appending a new binding does not change earlier lookups, and
lookup of the appended key on a miss finds it. -/
theorem alookup_append_of_none {α : Type} (l : List (String × α)) (k : String)
    (v : α) (hmiss : alookup l k = none) :
    alookup (l ++ [(k, v)]) k = some v := by
  induction l with
  | nil => simp [alookup]
  | cons kv rest ih =>
    by_cases hk : kv.1 = k
    · simp [alookup, hk] at hmiss
    · simp only [alookup, hk, if_false, List.cons_append] at hmiss ⊢
      exact ih hmiss

/-- Appending a binding for a key leaves other present lookups
unchanged. -/
theorem alookup_append_eq {α : Type} (l l' : List (String × α)) (k : String)
    (v : α) (hhit : alookup l k = some v) :
    alookup (l ++ l') k = some v := by
  induction l with
  | nil => simp [alookup] at hhit
  | cons kv rest ih =>
    by_cases hk : kv.1 = k
    · simp only [alookup, hk, if_true] at hhit
      simp [alookup, hk, hhit]
    · simp only [alookup, hk, if_false] at hhit
      simp only [List.cons_append, alookup, hk, if_false]
      exact ih hhit

/-- Setting up material nodes does not change an existing capture. -/
theorem setup_material_nodes_preserves (p : Projector) (mat : Material)
    (hhit : alookup p.original_nodes mat.matKey ≠ none) :
    (setup_material_nodes p mat).1.original_nodes = p.original_nodes := by
  unfold setup_material_nodes
  dsimp only
  rw [if_neg (by simpa using hhit)]

/-- After `setup_material_nodes`, the material has a capture. -/
theorem setup_material_nodes_captures (p : Projector) (mat : Material) :
    alookup (setup_material_nodes p mat).1.original_nodes mat.matKey ≠ none := by
  unfold setup_material_nodes
  dsimp only
  by_cases hmiss : alookup p.original_nodes mat.matKey = none
  · rw [if_pos hmiss]
    dsimp only
    rw [alookup_append_of_none _ _ _ hmiss]
    simp
  · rw [if_neg hmiss]
    exact hmiss

/-- Toggling never removes or rewrites an existing
`original_connection` property. -/
theorem toggle_preserves_existing (mat : Material) (b : Bool)
    (conn : String × Nat)
    (hhit : alookup mat.id_props "original_connection" = some conn) :
    alookup (toggle_material_nodes mat b).id_props "original_connection" =
      some conn := by
  unfold toggle_material_nodes
  by_cases hn : ¬ mat.use_nodes
  · rw [if_pos hn]; exact hhit
  · rw [if_neg hn]
    cases hbt : findNode mat "Bake_Texture" with
    | none => exact hhit
    | some bt =>
      cases hmo : findNode mat "Material Output" with
      | none => exact hhit
      | some mo =>
        dsimp only
        have hcap : (if b ∧ alookup mat.id_props "original_connection" = none then
            match mat.surface_link with
            | some link =>
              if link.1 ≠ "Bake_Texture" then
                { mat with id_props := mat.id_props ++ [("original_connection", link)] }
              else mat
            | none => mat
          else mat) = mat := by
          rw [if_neg]
          rintro ⟨-, hnone⟩
          rw [hhit] at hnone
          cases hnone
        rw [hcap]
        cases b with
        | true => simpa using hhit
        | false =>
          simp only [Bool.false_eq_true, if_false]
          cases halo : alookup mat.id_props "original_connection" with
          | none => rw [hhit] at halo; cases halo
          | some c =>
            dsimp only
            cases hfn : findNode { mat with surface_link := none } c.1 with
            | none => simpa using hhit
            | some node =>
              dsimp only
              split <;> simpa using hhit

/-- Toggling the preview off never touches the custom properties: the
restore path only rewires the Surface link. -/
theorem toggle_off_id_props (mat : Material) :
    (toggle_material_nodes mat false).id_props = mat.id_props := by
  unfold toggle_material_nodes
  by_cases hu : ¬ mat.use_nodes
  · rw [if_pos hu]
  · rw [if_neg hu]
    cases hbt : findNode mat "Bake_Texture" with
    | none => rfl
    | some bt =>
      cases hmo : findNode mat "Material Output" with
      | none => rfl
      | some mo =>
        dsimp only
        have hcap : (if (false : Bool) ∧ alookup mat.id_props "original_connection" = none then
            match mat.surface_link with
            | some link =>
              if link.1 ≠ "Bake_Texture" then
                { mat with id_props := mat.id_props ++ [("original_connection", link)] }
              else mat
            | none => mat
          else mat) = mat := by
          rw [if_neg]
          rintro ⟨hfalse, -⟩
          cases hfalse
        rw [hcap]
        cases halo : alookup mat.id_props "original_connection" with
        | none => rfl
        | some conn =>
          dsimp only
          cases hfn : findNode { mat with surface_link := none } conn.1 with
          | none => rfl
          | some node =>
            dsimp only
            (repeat' split) <;> rfl

/-- A toggle finds either nothing to do at all, or (when showing the
bake through the full path) leaves the Surface input wired to the
`Bake_Texture` node. -/
theorem toggle_on_shape (mat : Material) :
    toggle_material_nodes mat true = mat ∨
    (toggle_material_nodes mat true).surface_link = some ("Bake_Texture", 0) := by
  unfold toggle_material_nodes
  by_cases hu : ¬ mat.use_nodes
  · left; rw [if_pos hu]
  · rw [if_neg hu]
    cases hbt : findNode mat "Bake_Texture" with
    | none => left; rfl
    | some bt =>
      cases hmo : findNode mat "Material Output" with
      | none => left; rfl
      | some mo => right; rfl

/-- When the Surface input is unlinked or already fed by
`Bake_Texture`, a toggle writes no `original_connection` property. -/
theorem toggle_no_capture (mat : Material) (b : Bool)
    (hsl : mat.surface_link = none ∨
      ∃ k, mat.surface_link = some ("Bake_Texture", k)) :
    (toggle_material_nodes mat b).id_props = mat.id_props := by
  unfold toggle_material_nodes
  by_cases hu : ¬ mat.use_nodes
  · rw [if_pos hu]
  · rw [if_neg hu]
    cases hbt : findNode mat "Bake_Texture" with
    | none => rfl
    | some bt =>
      cases hmo : findNode mat "Material Output" with
      | none => rfl
      | some mo =>
        dsimp only
        have hcap : (if b ∧ alookup mat.id_props "original_connection" = none then
            match mat.surface_link with
            | some link =>
              if link.1 ≠ "Bake_Texture" then
                { mat with id_props := mat.id_props ++ [("original_connection", link)] }
              else mat
            | none => mat
          else mat) = mat := by
          split
          · rcases hsl with hnone | ⟨k, hbake⟩
            · rw [hnone]
            · rw [hbake]
              dsimp only
              rw [if_neg (by simp)]
          · rfl
        rw [hcap]
        cases b with
        | true => rfl
        | false =>
          simp only [Bool.false_eq_true, if_false]
          cases halo : alookup mat.id_props "original_connection" with
          | none => rfl
          | some conn =>
            dsimp only
            cases hfn : findNode { mat with surface_link := none } conn.1 with
            | none => rfl
            | some node =>
              dsimp only
              split <;> rfl

/-- When the capture conditions all hold — nodes enabled, bake and
output nodes present, no prior capture, Surface fed by a node other
than `Bake_Texture` — toggling the preview on stores exactly the
current connection. -/
theorem toggle_captures (mat : Material) (bt mo : BNode) (link : String × Nat)
    (hu : mat.use_nodes = true)
    (hbt : findNode mat "Bake_Texture" = some bt)
    (hmo : findNode mat "Material Output" = some mo)
    (halo : alookup mat.id_props "original_connection" = none)
    (hsl : mat.surface_link = some link)
    (hne : link.1 ≠ "Bake_Texture") :
    alookup (toggle_material_nodes mat true).id_props "original_connection" =
      some link := by
  unfold toggle_material_nodes
  rw [if_neg (by simp [hu]), hbt, hmo]
  dsimp only
  have hc : (true : Bool) ∧ alookup mat.id_props "original_connection" = none :=
    ⟨rfl, halo⟩
  rw [if_pos hc, hsl]
  dsimp only
  rw [if_pos hne]
  exact alookup_append_of_none _ _ _ halo

/-- A second toggle — in either direction — leaves whatever the first
toggle-on call captured untouched. -/
theorem toggle_twice (mat : Material) (b : Bool) :
    alookup (toggle_material_nodes (toggle_material_nodes mat true) b).id_props
        "original_connection" =
      alookup (toggle_material_nodes mat true).id_props "original_connection" := by
  cases halo : alookup (toggle_material_nodes mat true).id_props
      "original_connection" with
  | some conn => exact toggle_preserves_existing _ b conn halo
  | none =>
    cases b with
    | false => rw [toggle_off_id_props]; exact halo
    | true =>
      rcases toggle_on_shape mat with heq | hsl
      · rw [heq] at halo ⊢
        rw [heq]
        exact halo
      · rw [toggle_no_capture _ true (Or.inr ⟨0, hsl⟩)]
        exact halo

/-- C6: idempotent capture of the original output connection.
`setup_material_nodes` stores into `original_nodes` only when the
material has no entry yet, so an existing entry survives any further
invocation and the value looked up after two invocations is the one
captured by the first; the preview toggle writes
`mat["original_connection"]` only when the key is absent and the
connected node is not `Bake_Texture` (an existing value is never
rewritten, and no write happens when the Surface input is unlinked or
already fed by `Bake_Texture`), so repeated toggles keep the first
captured value. -/
theorem original_connection_idempotent_capture
    (p : Projector) (mat : Material)
    (hhit : alookup p.original_nodes mat.matKey ≠ none)
    (p₂ : Projector) (mat₂ mat₂' : Material) (hkey : mat₂'.matKey = mat₂.matKey)
    (mat₃ : Material) (b₃ : Bool) (conn₃ : String × Nat)
    (hhit₃ : alookup mat₃.id_props "original_connection" = some conn₃)
    (mat₄ : Material) (b₄ : Bool)
    (hsl₄ : mat₄.surface_link = none ∨
      ∃ k, mat₄.surface_link = some ("Bake_Texture", k))
    (mat₅ : Material) (b₅ : Bool) :
    (setup_material_nodes p mat).1.original_nodes = p.original_nodes ∧
    alookup (setup_material_nodes (setup_material_nodes p₂ mat₂).1 mat₂').1.original_nodes
        mat₂.matKey =
      alookup (setup_material_nodes p₂ mat₂).1.original_nodes mat₂.matKey ∧
    alookup (toggle_material_nodes mat₃ b₃).id_props "original_connection" =
      some conn₃ ∧
    (toggle_material_nodes mat₄ b₄).id_props = mat₄.id_props ∧
    alookup (toggle_material_nodes (toggle_material_nodes mat₅ true) b₅).id_props
        "original_connection" =
      alookup (toggle_material_nodes mat₅ true).id_props "original_connection" := by
  refine ⟨setup_material_nodes_preserves p mat hhit, ?_,
    toggle_preserves_existing mat₃ b₃ conn₃ hhit₃,
    toggle_no_capture mat₄ b₄ hsl₄,
    toggle_twice mat₅ b₅⟩
  have hcap := setup_material_nodes_captures p₂ mat₂
  rw [setup_material_nodes_preserves (setup_material_nodes p₂ mat₂).1 mat₂'
    (by rw [hkey]; exact hcap)]

/-- Concrete material with an original shader connection, used by the
C6 witness. -/
def fixtureMaterial : Material :=
  { matKey := "Material",
    use_nodes := true,
    nodes := [⟨"Principled BSDF", "BSDF_PRINCIPLED", 1⟩,
              ⟨"Material Output", "OUTPUT_MATERIAL", 0⟩,
              ⟨"Bake_Texture", "TEX_IMAGE", 1⟩],
    surface_link := some ("Principled BSDF", 0),
    id_props := [] }

/-- Concrete material whose connection was already captured. -/
def fixtureCapturedMaterial : Material :=
  { fixtureMaterial with
      surface_link := some ("Bake_Texture", 0),
      id_props := [("original_connection", ("Principled BSDF", 0))] }

/-- Concrete projector that already captured `fixtureMaterial`. -/
def fixtureCapturedProjector : Projector :=
  { settings := {}, temp_files := [],
    original_nodes := [("Material", ([("Principled BSDF", "BSDF_PRINCIPLED")],
      some "Principled BSDF"))],
    camera := none }

/-- Witness for C6 at concrete inputs. -/
theorem original_connection_idempotent_capture_witness :
    (alookup fixtureCapturedProjector.original_nodes fixtureMaterial.matKey ≠ none ∧
     fixtureMaterial.matKey = fixtureMaterial.matKey ∧
     alookup fixtureCapturedMaterial.id_props "original_connection" =
       some ("Principled BSDF", 0) ∧
     (fixtureCapturedMaterial.surface_link = none ∨
       ∃ k, fixtureCapturedMaterial.surface_link = some ("Bake_Texture", k))) ∧
    ((setup_material_nodes fixtureCapturedProjector fixtureMaterial).1.original_nodes =
      fixtureCapturedProjector.original_nodes ∧
    alookup (setup_material_nodes
        (setup_material_nodes (TextureProjector.init {}) fixtureMaterial).1
        fixtureMaterial).1.original_nodes fixtureMaterial.matKey =
      alookup (setup_material_nodes (TextureProjector.init {})
        fixtureMaterial).1.original_nodes fixtureMaterial.matKey ∧
    alookup (toggle_material_nodes fixtureCapturedMaterial true).id_props
        "original_connection" = some ("Principled BSDF", 0) ∧
    (toggle_material_nodes fixtureCapturedMaterial true).id_props =
      fixtureCapturedMaterial.id_props ∧
    alookup (toggle_material_nodes (toggle_material_nodes fixtureMaterial true)
        false).id_props "original_connection" =
      alookup (toggle_material_nodes fixtureMaterial true).id_props
        "original_connection") :=
  ⟨⟨by decide, rfl, rfl, Or.inr ⟨0, rfl⟩⟩,
   original_connection_idempotent_capture
     fixtureCapturedProjector fixtureMaterial (by decide)
     (TextureProjector.init {}) fixtureMaterial fixtureMaterial rfl
     fixtureCapturedMaterial true ("Principled BSDF", 0) rfl
     fixtureCapturedMaterial true (Or.inr ⟨0, rfl⟩)
     fixtureMaterial false⟩

/-! ## Camera geometry

`calculate_optimal_distance`, `get_view_parameters` and
`position_camera` read the mesh's bounding box through
`self.obj.matrix_world @ corner`; the world-space corner list is the
input here (the matrix product is the host's).  Python floats are
modelled as reals. -/

/-- A 3D vector (`mathutils.Vector` with three components). -/
structure Vec3 where
  x : ℝ
  y : ℝ
  z : ℝ

/-- Model of `max(f(c) for c in corners)` over a non-empty corner list (`0` on
the empty list, which the addon never passes — `bound_box` always has
8 corners). -/
noncomputable def coordsMax (f : Vec3 → ℝ) : List Vec3 → ℝ
  | [] => 0
  | c :: rest => rest.foldl (fun m v => max m (f v)) (f c)

/-- Model of `min(f(c) for c in corners)` over a non-empty corner list. -/
noncomputable def coordsMin (f : Vec3 → ℝ) : List Vec3 → ℝ
  | [] => 0
  | c :: rest => rest.foldl (fun m v => min m (f v)) (f c)

/-- Model of `TextureProjector.calculate_optimal_distance`
(`src/utils/projector.py` lines 244-268): world-space bounding-box
extents, a per-view base factor (with `max_dimension * 1.2` as the
`dict.get` default), and a distance from the camera's field-of-view
angle. -/
noncomputable def calculate_optimal_distance (obj : Option (List Vec3)) (fov : ℝ)
    (view_type : String) : ℝ :=
  match obj with
  | none => 2.0
  | some bbox_corners =>
    let dim_x := coordsMax Vec3.x bbox_corners - coordsMin Vec3.x bbox_corners
    let dim_y := coordsMax Vec3.y bbox_corners - coordsMin Vec3.y bbox_corners
    let dim_z := coordsMax Vec3.z bbox_corners - coordsMin Vec3.z bbox_corners
    let max_dimension := max dim_x dim_y
    let height := dim_z
    let base_distance :=
      if view_type = "below" then max_dimension * 1.2
      else if view_type = "total" then max max_dimension height * 2.0
      else if view_type = "upper" then max_dimension * 1.2
      else max_dimension * 1.2
    base_distance / (2 * Real.tan (fov / 2)) * 0.8

/-- Model of `TextureProjector.get_view_parameters`
(`src/utils/projector.py` lines 270-286): per view type, a z
multiplier, a z position, and the bounding-box centre as target (the
`dict.get` default is the `"total"` tuple). -/
noncomputable def get_view_parameters (bbox_corners : List Vec3)
    (view_type : String) : ℝ × ℝ × Vec3 :=
  let min_bound : Vec3 := ⟨coordsMin Vec3.x bbox_corners,
    coordsMin Vec3.y bbox_corners, coordsMin Vec3.z bbox_corners⟩
  let max_bound : Vec3 := ⟨coordsMax Vec3.x bbox_corners,
    coordsMax Vec3.y bbox_corners, coordsMax Vec3.z bbox_corners⟩
  let center : Vec3 := ⟨(min_bound.x + max_bound.x) / 2,
    (min_bound.y + max_bound.y) / 2, (min_bound.z + max_bound.z) / 2⟩
  let height := max_bound.z - min_bound.z
  if view_type = "below" then (0.3, min_bound.z - height * 0.2, center)
  else if view_type = "total" then (1.0, center.z, center)
  else if view_type = "upper" then (1.7, max_bound.z + height * 0.2, center)
  else (1.0, center.z, center)

/-- The camera location computed by `TextureProjector.position_camera`
(`src/utils/projector.py` lines 288-331); the subsequent aim-at-target
rotation (`to_track_quat`) is a host call.  `math.radians` is
`· * π / 180`. -/
noncomputable def position_camera_location (bbox_corners : List Vec3) (fov : ℝ)
    (horizontal_angle : ℝ) (view_type : String) : Vec3 :=
  let params := get_view_parameters bbox_corners view_type
  let z_pos := params.2.1
  let target := params.2.2
  let distance := calculate_optimal_distance (some bbox_corners) fov view_type
  let h_rad := horizontal_angle * Real.pi / 180
  if view_type = "below" then
    ⟨target.x + distance * 0.9 * Real.cos h_rad,
     target.y + distance * 0.9 * Real.sin h_rad,
     z_pos - distance * 0.3⟩
  else if view_type = "total" then
    ⟨target.x + distance * Real.cos h_rad,
     target.y + distance * Real.sin h_rad,
     target.z⟩
  else
    ⟨target.x + distance * 0.9 * Real.cos h_rad,
     target.y + distance * 0.9 * Real.sin h_rad,
     z_pos + distance * 0.3⟩

/-- The centre of the axis-aligned bounding box of the corners —
the specification's description of the camera target. -/
noncomputable def bboxCenter (corners : List Vec3) : Vec3 :=
  ⟨(coordsMin Vec3.x corners + coordsMax Vec3.x corners) / 2,
   (coordsMin Vec3.y corners + coordsMax Vec3.y corners) / 2,
   (coordsMin Vec3.z corners + coordsMax Vec3.z corners) / 2⟩

/-- The per-category base length of the specification, a function of
the bounding-box extents only: `1.2 · 0.8` times the larger horizontal
extent for the `below`/`upper` shots, `2.0 · 0.8` times the largest
extent for the `total` shot. -/
noncomputable def viewBaseLength (view_type : String) (corners : List Vec3) : ℝ :=
  let dim_x := coordsMax Vec3.x corners - coordsMin Vec3.x corners
  let dim_y := coordsMax Vec3.y corners - coordsMin Vec3.y corners
  let dim_z := coordsMax Vec3.z corners - coordsMin Vec3.z corners
  let max_dimension := max dim_x dim_y
  if view_type = "total" then max max_dimension dim_z * 2.0 * 0.8
  else max_dimension * 1.2 * 0.8

/-! ### Fold bound lemmas -/

/-- A max-fold only grows its accumulator. -/
theorem init_le_foldl_max (f : Vec3 → ℝ) (rest : List Vec3) (a : ℝ) :
    a ≤ rest.foldl (fun m v => max m (f v)) a := by
  induction rest generalizing a with
  | nil => exact le_refl a
  | cons c t ih => exact le_trans (le_max_left a (f c)) (ih (max a (f c)))

/-- Every member is below the max-fold. -/
theorem mem_le_foldl_max (f : Vec3 → ℝ) (rest : List Vec3) (a : ℝ) (v : Vec3)
    (hv : v ∈ rest) :
    f v ≤ rest.foldl (fun m v => max m (f v)) a := by
  induction rest generalizing a with
  | nil => cases hv
  | cons c t ih =>
    rcases List.mem_cons.mp hv with rfl | hvt
    · exact le_trans (le_max_right a (f v)) (init_le_foldl_max f t _)
    · exact ih _ hvt

/-- A min-fold only shrinks its accumulator. -/
theorem foldl_min_le_init (f : Vec3 → ℝ) (rest : List Vec3) (a : ℝ) :
    rest.foldl (fun m v => min m (f v)) a ≤ a := by
  induction rest generalizing a with
  | nil => exact le_refl a
  | cons c t ih => exact le_trans (ih (min a (f c))) (min_le_left a (f c))

/-- The min-fold is below every member. -/
theorem foldl_min_le_mem (f : Vec3 → ℝ) (rest : List Vec3) (a : ℝ) (v : Vec3)
    (hv : v ∈ rest) :
    rest.foldl (fun m v => min m (f v)) a ≤ f v := by
  induction rest generalizing a with
  | nil => cases hv
  | cons c t ih =>
    rcases List.mem_cons.mp hv with rfl | hvt
    · exact le_trans (foldl_min_le_init f t _) (min_le_right a (f v))
    · exact ih _ hvt

/-- The maximum fold bounds every corner from above. -/
theorem le_coordsMax (f : Vec3 → ℝ) (l : List Vec3) (v : Vec3) (hv : v ∈ l) :
    f v ≤ coordsMax f l := by
  cases l with
  | nil => cases hv
  | cons c rest =>
    rcases List.mem_cons.mp hv with rfl | hvr
    · exact init_le_foldl_max f rest (f v)
    · exact mem_le_foldl_max f rest (f c) v hvr

/-- The minimum fold bounds every corner from below. -/
theorem coordsMin_le (f : Vec3 → ℝ) (l : List Vec3) (v : Vec3) (hv : v ∈ l) :
    coordsMin f l ≤ f v := by
  cases l with
  | nil => cases hv
  | cons c rest =>
    rcases List.mem_cons.mp hv with rfl | hvr
    · exact foldl_min_le_init f rest (f v)
    · exact foldl_min_le_mem f rest (f c) v hvr

/-- C7: camera framing geometry.  For each view category, the camera
target returned by `get_view_parameters` is the centre of the
world-space axis-aligned bounding box (whose min/max coordinates
really do bound every corner), the vertical position is offset from
the box's bottom/top face by `0.2` times the box height (`total`
targets the centre height), and `calculate_optimal_distance` equals a
per-category base length — a function of the bounding-box extents
alone — divided by `2·tan(fov/2)`: the framing rule the specification
describes. -/
theorem camera_framing_geometry (corners : List Vec3) (fov : ℝ)
    (hne : corners ≠ []) :
    ((get_view_parameters corners "below").2.2 = bboxCenter corners ∧
     (get_view_parameters corners "total").2.2 = bboxCenter corners ∧
     (get_view_parameters corners "upper").2.2 = bboxCenter corners) ∧
    ((get_view_parameters corners "below").2.1 =
        coordsMin Vec3.z corners -
          (coordsMax Vec3.z corners - coordsMin Vec3.z corners) * 0.2 ∧
     (get_view_parameters corners "total").2.1 = (bboxCenter corners).z ∧
     (get_view_parameters corners "upper").2.1 =
        coordsMax Vec3.z corners +
          (coordsMax Vec3.z corners - coordsMin Vec3.z corners) * 0.2) ∧
    (calculate_optimal_distance (some corners) fov "below" =
        viewBaseLength "below" corners / (2 * Real.tan (fov / 2)) ∧
     calculate_optimal_distance (some corners) fov "total" =
        viewBaseLength "total" corners / (2 * Real.tan (fov / 2)) ∧
     calculate_optimal_distance (some corners) fov "upper" =
        viewBaseLength "upper" corners / (2 * Real.tan (fov / 2))) ∧
    (∀ v ∈ corners,
      coordsMin Vec3.x corners ≤ v.x ∧ v.x ≤ coordsMax Vec3.x corners ∧
      coordsMin Vec3.y corners ≤ v.y ∧ v.y ≤ coordsMax Vec3.y corners ∧
      coordsMin Vec3.z corners ≤ v.z ∧ v.z ≤ coordsMax Vec3.z corners) := by
  refine ⟨⟨?_, ?_, ?_⟩, ⟨?_, ?_, ?_⟩, ⟨?_, ?_, ?_⟩, ?_⟩
  · simp [get_view_parameters, bboxCenter]
  · simp [get_view_parameters, bboxCenter]
  · simp [get_view_parameters, bboxCenter]
  · simp [get_view_parameters]
  · simp [get_view_parameters, bboxCenter]
  · simp [get_view_parameters]
  · simp only [calculate_optimal_distance, viewBaseLength, String.reduceEq, reduceIte]
    ring
  · simp only [calculate_optimal_distance, viewBaseLength, String.reduceEq, reduceIte]
    ring
  · simp only [calculate_optimal_distance, viewBaseLength, String.reduceEq, reduceIte]
    ring
  · intro v hv
    exact ⟨coordsMin_le Vec3.x corners v hv, le_coordsMax Vec3.x corners v hv,
      coordsMin_le Vec3.y corners v hv, le_coordsMax Vec3.y corners v hv,
      coordsMin_le Vec3.z corners v hv, le_coordsMax Vec3.z corners v hv⟩

/-- Witness for C7 on a concrete two-corner box and a right-angle
field of view. -/
theorem camera_framing_geometry_witness :
    ([(⟨0, 0, 0⟩ : Vec3), ⟨1, 2, 3⟩] ≠ []) ∧
    (((get_view_parameters [⟨0, 0, 0⟩, ⟨1, 2, 3⟩] "below").2.2 =
        bboxCenter [⟨0, 0, 0⟩, ⟨1, 2, 3⟩] ∧
      (get_view_parameters [⟨0, 0, 0⟩, ⟨1, 2, 3⟩] "total").2.2 =
        bboxCenter [⟨0, 0, 0⟩, ⟨1, 2, 3⟩] ∧
      (get_view_parameters [⟨0, 0, 0⟩, ⟨1, 2, 3⟩] "upper").2.2 =
        bboxCenter [⟨0, 0, 0⟩, ⟨1, 2, 3⟩]) ∧
    ((get_view_parameters [⟨0, 0, 0⟩, ⟨1, 2, 3⟩] "below").2.1 =
        coordsMin Vec3.z [⟨0, 0, 0⟩, ⟨1, 2, 3⟩] -
          (coordsMax Vec3.z [⟨0, 0, 0⟩, ⟨1, 2, 3⟩] -
            coordsMin Vec3.z [⟨0, 0, 0⟩, ⟨1, 2, 3⟩]) * 0.2 ∧
     (get_view_parameters [⟨0, 0, 0⟩, ⟨1, 2, 3⟩] "total").2.1 =
        (bboxCenter [⟨0, 0, 0⟩, ⟨1, 2, 3⟩]).z ∧
     (get_view_parameters [⟨0, 0, 0⟩, ⟨1, 2, 3⟩] "upper").2.1 =
        coordsMax Vec3.z [⟨0, 0, 0⟩, ⟨1, 2, 3⟩] +
          (coordsMax Vec3.z [⟨0, 0, 0⟩, ⟨1, 2, 3⟩] -
            coordsMin Vec3.z [⟨0, 0, 0⟩, ⟨1, 2, 3⟩]) * 0.2) ∧
    (calculate_optimal_distance (some [⟨0, 0, 0⟩, ⟨1, 2, 3⟩]) (Real.pi / 2) "below" =
        viewBaseLength "below" [⟨0, 0, 0⟩, ⟨1, 2, 3⟩] /
          (2 * Real.tan (Real.pi / 2 / 2)) ∧
     calculate_optimal_distance (some [⟨0, 0, 0⟩, ⟨1, 2, 3⟩]) (Real.pi / 2) "total" =
        viewBaseLength "total" [⟨0, 0, 0⟩, ⟨1, 2, 3⟩] /
          (2 * Real.tan (Real.pi / 2 / 2)) ∧
     calculate_optimal_distance (some [⟨0, 0, 0⟩, ⟨1, 2, 3⟩]) (Real.pi / 2) "upper" =
        viewBaseLength "upper" [⟨0, 0, 0⟩, ⟨1, 2, 3⟩] /
          (2 * Real.tan (Real.pi / 2 / 2))) ∧
    (∀ v ∈ [(⟨0, 0, 0⟩ : Vec3), ⟨1, 2, 3⟩],
      coordsMin Vec3.x [⟨0, 0, 0⟩, ⟨1, 2, 3⟩] ≤ v.x ∧
      v.x ≤ coordsMax Vec3.x [⟨0, 0, 0⟩, ⟨1, 2, 3⟩] ∧
      coordsMin Vec3.y [⟨0, 0, 0⟩, ⟨1, 2, 3⟩] ≤ v.y ∧
      v.y ≤ coordsMax Vec3.y [⟨0, 0, 0⟩, ⟨1, 2, 3⟩] ∧
      coordsMin Vec3.z [⟨0, 0, 0⟩, ⟨1, 2, 3⟩] ≤ v.z ∧
      v.z ≤ coordsMax Vec3.z [⟨0, 0, 0⟩, ⟨1, 2, 3⟩])) :=
  ⟨by simp,
   camera_framing_geometry [⟨0, 0, 0⟩, ⟨1, 2, 3⟩] (Real.pi / 2) (by simp)⟩

/-! ## The `memoize` decorator -/

/-- Generic association lookup for the memoization cache (`key in
cache[self]`).  The key models Python's `(args, frozenset(kwargs))`
tuple. -/
def cacheLookup {κ α : Type} [DecidableEq κ] : List (κ × α) → κ → Option α
  | [], _ => none
  | kv :: rest, k => if kv.1 = k then some kv.2 else cacheLookup rest k

/-- Model of `memoize` from `src/utils/functions.py` (lines 3-11): the wrapper
around a bound method.  `cache` is this instance's dictionary
(`cache[self]` of the `WeakKeyDictionary`), `env` the instance state
the wrapped function reads (`self.obj`, `self.camera`, …).  On a hit
the stored value is returned and the function is not called; on a miss
the function runs once and its value is stored. -/
def memoize_call {κ α Env : Type} [DecidableEq κ] (func : Env → κ → α)
    (cache : List (κ × α)) (env : Env) (key : κ) : α × List (κ × α) :=
  match cacheLookup cache key with
  | some v => (v, cache)
  | none => (func env key, cache ++ [(key, func env key)])

/-- A fresh cache always misses. -/
theorem memoize_call_nil {κ α Env : Type} [DecidableEq κ] (func : Env → κ → α)
    (env : Env) (key : κ) :
    memoize_call func [] env key = (func env key, [(key, func env key)]) := rfl

/-- A hit returns the stored value and leaves the cache unchanged,
whatever the current environment or function. -/
theorem memoize_call_hit {κ α Env : Type} [DecidableEq κ] (func : Env → κ → α)
    (cache : List (κ × α)) (env : Env) (key : κ) (v : α)
    (hv : cacheLookup cache key = some v) :
    memoize_call func cache env key = (v, cache) := by
  unfold memoize_call
  rw [hv]

/-- C9: per-instance, per-argument memoization of
`calculate_optimal_distance` and `get_view_parameters`.  After the
first call with a view type, every later call with the same view type
returns exactly the first call's value and leaves the cache unchanged
— the wrapped computation is not consulted again, even though the
object (its bounding box) and the camera's field of view may have
changed to arbitrary new values in between. -/
theorem memoize_caches_first_value
    (obj₁ obj₂ obj₃ : Option (List Vec3)) (fov₁ fov₂ fov₃ : ℝ)
    (corners₁ corners₂ corners₃ : List Vec3) (v : String) :
    (let f := fun (e : Option (List Vec3) × ℝ) (k : String) =>
        calculate_optimal_distance e.1 e.2 k
     let r₁ := memoize_call f [] (obj₁, fov₁) v
     let r₂ := memoize_call f r₁.2 (obj₂, fov₂) v
     let r₃ := memoize_call f r₂.2 (obj₃, fov₃) v
     r₁.1 = calculate_optimal_distance obj₁ fov₁ v ∧
     r₂.1 = calculate_optimal_distance obj₁ fov₁ v ∧ r₂.2 = r₁.2 ∧
     r₃.1 = calculate_optimal_distance obj₁ fov₁ v ∧ r₃.2 = r₁.2) ∧
    (let g := fun (e : List Vec3) (k : String) => get_view_parameters e k
     let s₁ := memoize_call g [] corners₁ v
     let s₂ := memoize_call g s₁.2 corners₂ v
     let s₃ := memoize_call g s₂.2 corners₃ v
     s₁.1 = get_view_parameters corners₁ v ∧
     s₂.1 = get_view_parameters corners₁ v ∧ s₂.2 = s₁.2 ∧
     s₃.1 = get_view_parameters corners₁ v ∧ s₃.2 = s₁.2) := by
  constructor
  · dsimp only
    rw [memoize_call_nil]
    have hhit : cacheLookup [(v, calculate_optimal_distance obj₁ fov₁ v)] v =
        some (calculate_optimal_distance obj₁ fov₁ v) := by
      simp [cacheLookup]
    rw [memoize_call_hit _ _ _ _ _ hhit]
    rw [memoize_call_hit _ _ _ _ _ hhit]
    exact ⟨rfl, rfl, rfl, rfl, rfl⟩
  · dsimp only
    rw [memoize_call_nil]
    have hhit : cacheLookup [(v, get_view_parameters corners₁ v)] v =
        some (get_view_parameters corners₁ v) := by
      simp [cacheLookup]
    rw [memoize_call_hit _ _ _ _ _ hhit]
    rw [memoize_call_hit _ _ _ _ _ hhit]
    exact ⟨rfl, rfl, rfl, rfl, rfl⟩

/-! ### Settings frame lemmas -/

/-- Projector cleanup leaves the settings object alone. -/
theorem cleanup_settings (p : Projector) (h : HostState) :
    (TextureProjector.cleanup p h).1.settings = p.settings := by
  rw [cleanup_eq]

/-- Recording a render artifact leaves the settings object alone. -/
theorem applyRenderArtifact_settings (p : Projector) (h : HostState)
    (art : String × String) :
    (applyRenderArtifact p h art).1.settings = p.settings := rfl

/-- The operator's cleanup leaves the settings object alone. -/
theorem opCleanup_settings (s : OpState) :
    (EEVEE_OT_TextureBaker.cleanup s).projector.settings = s.projector.settings := by
  rw [(opCleanup_spec s).1, cleanup_settings]

/-- Every branch of the modal handler leaves the settings object
alone. -/
theorem modal_settings (step : Nat → StepResult) (s : OpState) (ev : Event) :
    (EEVEE_OT_TextureBaker.modal step s ev).state.projector.settings =
      s.projector.settings := by
  by_cases hc : s.props.should_cancel = true
  · simp only [EEVEE_OT_TextureBaker.modal, hc, if_true, Outcome.state]
    exact opCleanup_settings s
  · have hc' : s.props.should_cancel = false := by
      cases hb : s.props.should_cancel
      · rfl
      · exact absurd hb hc
    cases ev with
    | OTHER => simp [EEVEE_OT_TextureBaker.modal, hc', Outcome.state]
    | TIMER =>
      cases hab : s.props.auto_bake with
      | false =>
        cases hstep : step s.current_angle_index with
        | raises => simp [EEVEE_OT_TextureBaker.modal, hc', hab, hstep, Outcome.state]
        | succeeds art =>
          simp [EEVEE_OT_TextureBaker.modal, hc', hab, hstep, Outcome.state,
            opCleanup_settings, applyRenderArtifact_settings]
      | true =>
        by_cases hlen : s.camera_angles.length ≤ s.current_angle_index
        · simp [EEVEE_OT_TextureBaker.modal, hc', hab, hlen, Outcome.state,
            opCleanup_settings]
        · cases hget : s.camera_angles.get? s.current_angle_index with
          | none =>
            rw [List.get?_eq_getElem?] at hget
            simp [EEVEE_OT_TextureBaker.modal, hc', hab, hlen, hget, Outcome.state,
              opCleanup_settings]
          | some vh =>
            rw [List.get?_eq_getElem?] at hget
            cases hstep : step s.current_angle_index with
            | raises =>
              simp [EEVEE_OT_TextureBaker.modal, hc', hab, hlen, hget, hstep,
                Outcome.state]
            | succeeds art =>
              simp [EEVEE_OT_TextureBaker.modal, hc', hab, hlen, hget, hstep,
                Outcome.state, applyRenderArtifact_settings]

/-- Processing leaves the settings object alone, raising or not. -/
theorem process_settings (sf : Bool) (step : Nat → StepResult) (p : Projector)
    (h : HostState) :
    (TextureProjector.process sf step p h).2.1.settings = p.settings := by
  cases sf <;>
    simp [TextureProjector.process, cleanup_settings, processLoop_settings]

/-- Material-node setup leaves the settings object alone. -/
theorem setup_material_nodes_settings (p : Projector) (mat : Material) :
    (setup_material_nodes p mat).1.settings = p.settings := by
  unfold setup_material_nodes
  dsimp only
  split <;> rfl

/-- C8: the `ProjectionSettings` value object is never mutated after
construction.  Every modelled operation of the projector and of the
bake operator — artifact recording, projector cleanup, the per-angle
loop, the full `process` run, material-node setup, operator cleanup,
and every branch of the modal handler (normal or raising) — returns a
state whose `settings` equals the input's, hence with every field
(resolution, UV map name, image name, camera name, seam bleed, output
and temp folders) unchanged. -/
theorem settings_immutable
    (p : Projector) (h : HostState) (art : String × String)
    (total idx : Nat) (angles : List (String × ℤ))
    (sf : Bool) (step : Nat → StepResult) (mat : Material)
    (s : OpState) (ev : Event) :
    (applyRenderArtifact p h art).1.settings = p.settings ∧
    (TextureProjector.cleanup p h).1.settings = p.settings ∧
    (processLoop step total angles idx p h).1.settings = p.settings ∧
    (TextureProjector.process sf step p h).2.1.settings = p.settings ∧
    (setup_material_nodes p mat).1.settings = p.settings ∧
    (EEVEE_OT_TextureBaker.cleanup s).projector.settings = s.projector.settings ∧
    (EEVEE_OT_TextureBaker.modal step s ev).state.projector.settings =
      s.projector.settings :=
  ⟨applyRenderArtifact_settings p h art,
   cleanup_settings p h,
   processLoop_settings step total angles idx p h,
   process_settings sf step p h,
   setup_material_nodes_settings p mat,
   opCleanup_settings s,
   modal_settings step s ev⟩

end TexturePaintBake
